import Mathlib

/-!
Shallow embedding of the HTTP request executor in `src/base/request.cc`
(class `s3::base::request` of s3fuse).  Pure data is modelled directly;
the libcurl session handle, the `curl_easy_setopt` calls and
`curl_easy_perform` are library state outside the program text, abstracted by an oracle
that says, for each attempt, what the transfer delivered (see
`attempt_result` and `perform`).  Bytes are `Nat`, C strings are
`List Char` where parsing matters and `String` otherwise, and the
`double` elapsed-time counters are modelled as an additive `Nat`
quantity.
-/

/-- Result codes of `curl_easy_perform`, restricted to the distinctions
`request::run` makes: `ok` is CURLE_OK, the eleven transport-class codes
are those listed in the retry test of `request::run`, and `write_error`
stands for any other failure code (for instance the code curl returns
when a callback aborts the transfer). -/
inductive curl_code where
  | ok
  | resolve_proxy
  | resolve_host
  | couldnt_connect
  | xfer_incomplete
  | upload_failed
  | op_timedout
  | ssl_connect_error
  | got_nothing
  | send_error
  | recv_error
  | bad_content_encoding
  | write_error
deriving DecidableEq, Repr

/-- The transport-class error test of `request::run` (the eleven-way
disjunction from CURLE_COULDNT_RESOLVE_PROXY to
CURLE_BAD_CONTENT_ENCODING). -/
def curl_code.is_transport_error : curl_code → Bool
  | .resolve_proxy | .resolve_host | .couldnt_connect | .xfer_incomplete
  | .upload_failed | .op_timedout | .ssl_connect_error | .got_nothing
  | .send_error | .recv_error | .bad_content_encoding => true
  | .ok | .write_error => false

/-- Header lists: C strings as char lists, kept in order. -/
abbrev header_list := List (List Char × List Char)

/-- The pluggable signing/retry hook (`request_hook`).  `pre_run` signs
a request by rewriting its header list from the attempt index, and
`should_retry` inspects the attempt index, the response code and the
response headers. -/
structure request_hook where
  adjust_url : String → String
  pre_run_headers : Nat → header_list → header_list
  should_retry : Nat → Int → header_list → Bool

/-- Per-instance state of `s3::base::request`: the per-transaction
scratch (url, error buffer, method, header lists, buffers, response
fields, timeout deadline) plus the instance-lifetime statistics counters
and the flags set in the constructor.  The curl session handle itself is
unmodelled. -/
structure request where
  url : String
  curl_error : String
  method : String
  headers : header_list
  response_headers : header_list
  response_code : Int
  last_modified : Int
  output_buffer : List Nat
  input_buffer : List Nat
  input_size : Nat
  hook : Option request_hook
  canceled : Bool
  timeout : Nat
  run_count : Nat
  total_run_time : Nat
  current_run_time : Nat
  total_bytes_transferred : Nat

/-- The runtime errors (`std::runtime_error` throws) the modelled member
functions can raise. -/
inductive req_error where
  | canceled_reuse
  | unsupported_method
  | input_on_wrong_method
  | no_url
  | no_method
  | timed_out
  | aborted (msg : String)
deriving DecidableEq, Repr

/-- Case-insensitive equality on header names, the comparator of the
response-header map. -/
def ci_eq (a b : List Char) : Bool :=
  decide (a.map Char.toLower = b.map Char.toLower)

/-- `std::map::operator[]` assignment under the case-insensitive
comparator: replace the value of the first matching entry (keeping the
stored key), else append a new entry. -/
def header_assign : header_list → List Char → List Char → header_list
  | [], k, v => [(k, v)]
  | (k0, v0) :: rest, k, v =>
    if ci_eq k0 k then (k0, v) :: rest else (k0, v0) :: header_assign rest k v

/-- Lookup in the response-header map under the case-insensitive
comparator. -/
def header_lookup : header_list → List Char → Option (List Char)
  | [], _ => none
  | (k0, v0) :: rest, k => if ci_eq k0 k then some v0 else header_lookup rest k

/-- `strchr` followed by writing a NUL: keep the characters before the
first occurrence of `c` (the whole list when `c` is absent). -/
def truncate_at (c : Char) : List Char → List Char
  | [] => []
  | x :: xs => if x = c then [] else x :: truncate_at c xs

/-- `strchr(data, c)` for the colon, followed by `*pos++ = 0`: the name
before the first colon and the remainder after it; `none` when there is
no colon. -/
def split_at_colon : List Char → Option (List Char × List Char)
  | [] => none
  | x :: xs =>
    if x = ':' then some ([], xs)
    else match split_at_colon xs with
      | none => none
      | some (n, r) => some (x :: n, r)

/-- The single-space skip of `request::process_header`. -/
def drop_leading_space : List Char → List Char
  | ' ' :: r => r
  | r => r

/-- One header line as `request::process_header` parses it: truncate at
the first LF, then at the first CR, then split at the first colon and
drop one leading space of the value; `none` when there is no colon. -/
def parse_header_line (data : List Char) : Option (List Char × List Char) :=
  match split_at_colon (truncate_at '\r' (truncate_at '\n' data)) with
  | none => none
  | some (n, r) => some (n, drop_leading_space r)

/-- `request::process_header` (the curl header callback): returns the
callback's return value together with the updated state.  A canceled
request aborts by returning 0; a line with no colon leaves the map
unchanged; otherwise the parsed pair is stored by map assignment under
the case-insensitive comparator.  (The C guard for non-NUL-terminated
data concerns raw memory and is outside the model.) -/
def request.process_header (st : request) (data : List Char) : Nat × request :=
  if st.canceled then (0, st)
  else
    (data.length,
      match parse_header_line data with
      | none => st
      | some (n, v) =>
        { st with response_headers := header_assign st.response_headers n v })

/-- `request::process_output` (the curl write callback): append the
delivered bytes to the output buffer, or return 0 when canceled. -/
def request.process_output (st : request) (data : List Nat) : Nat × request :=
  if st.canceled then (0, st)
  else (data.length, { st with output_buffer := st.output_buffer ++ data })

/-- `request::process_input` (the curl read callback): copy
`min (requested, remaining)` bytes, advance the buffer and shrink the
remaining size by the same amount; return 0 when canceled. -/
def request.process_input (st : request) (size : Nat) : Nat × List Nat × request :=
  if st.canceled then (0, [], st)
  else
    let remaining := if size > st.input_size then st.input_size else size
    (remaining, st.input_buffer.take remaining,
      { st with
        input_buffer := st.input_buffer.drop remaining,
        input_size := st.input_size - remaining })

/-- A sequence of read-callback invocations: the total byte count
returned to the transport and the final state. -/
def process_input_seq (st : request) : List Nat → Nat × request
  | [] => (0, st)
  | n :: ns =>
    let r := request.process_input st n
    let rest := process_input_seq r.2.2 ns
    (r.1 + rest.1, rest.2)

/-- `request::set_url`: store the raw URL.  The hook-adjusted URL plus
query string is handed to the curl session, which is unmodelled. -/
def request.set_url (st : request) (url _query_string : String) : request :=
  { st with url := url }

/-- `request::set_input_buffer`: the buffer pointer and size are
assigned first; a nonzero size with a method other than PUT or POST then
raises the misuse error (after the assignment has happened). -/
def request.set_input_buffer (st : request) (buffer : List Nat) (size : Nat) :
    request × Option req_error :=
  let st1 := { st with input_buffer := buffer, input_size := size }
  if st1.method = "PUT" then (st1, none)
  else if st1.method = "POST" then (st1, none)
  else if size ≠ 0 then (st1, some .input_on_wrong_method)
  else (st1, none)

/-- `request::check_timeout`, with the wall clock passed explicitly:
when a deadline is set and has passed, mark the request canceled and
report true; otherwise report false and change nothing. -/
def request.check_timeout (now : Nat) (st : request) : Bool × request :=
  if st.timeout ≠ 0 ∧ st.timeout < now then (true, { st with canceled := true })
  else (false, st)

/-- The `http_method` argument of `request::init`; `HTTP_OTHER` stands
for any enum value outside the five handled ones, which `init` rejects
in its final else branch. -/
inductive http_method where
  | HTTP_DELETE | HTTP_GET | HTTP_HEAD | HTTP_POST | HTTP_PUT | HTTP_OTHER
deriving DecidableEq, Repr

/-- The method string `request::init` stores for each accepted method. -/
def method_string : http_method → String
  | .HTTP_DELETE => "DELETE"
  | .HTTP_GET => "GET"
  | .HTTP_HEAD => "HEAD"
  | .HTTP_POST => "POST"
  | .HTTP_PUT => "PUT"
  | .HTTP_OTHER => ""

/-- `request::init`: reject canceled requests, clear the per-transaction
fields, set the method string (rejecting an unknown method), and finish
with `set_input_buffer(NULL, 0)` (which cannot fail at size 0).  The
`curl_easy_setopt` resets act on the unmodelled session. -/
def request.init (st : request) (method : http_method) : Except req_error request :=
  if st.canceled then .error .canceled_reuse
  else
    let st1 :=
      { st with
        curl_error := "", url := "", output_buffer := [],
        response_headers := [], response_code := 0, last_modified := 0,
        headers := [] }
    if method = .HTTP_OTHER then .error .unsupported_method
    else .ok (request.set_input_buffer { st1 with method := method_string method } [] 0).1

/-- What one call to `curl_easy_perform` does, as seen by
`request::run`: the returned code, whether the watchdog's
`check_timeout` fired during the transfer, the response-header lines and
body bytes the transfer delivered through the callbacks, the values
`curl_easy_getinfo` reports afterwards, and the error-buffer text. -/
structure attempt_result where
  code : curl_code
  timed_out : Bool
  header_lines : List (List Char)
  output_data : List Nat
  response_code : Int
  elapsed : Nat
  filetime : Int
  error_msg : String

/-- Deliver one attempt's header lines through `process_header`. -/
def deliver_headers (st : request) (lines : List (List Char)) : request :=
  lines.foldl (fun s l => (request.process_header s l).2) st

/-- The response-header map produced by folding map assignment over a
list of header lines, starting from a given map. -/
def parse_header_lines (m : header_list) (lines : List (List Char)) : header_list :=
  lines.foldl (fun acc l =>
    match parse_header_line l with
    | none => acc
    | some (n, v) => header_assign acc n v) m

/-- `curl_easy_perform`, abstracted: a timed-out transfer marks the
request canceled (the watchdog ran `check_timeout`); otherwise the
delivered headers and body bytes pass through the callbacks, which drop
everything when the request is already canceled.  The error buffer is
left holding curl's message. -/
def perform (a : attempt_result) (st : request) : curl_code × request :=
  (a.code,
    if a.timed_out then { st with canceled := true, curl_error := a.error_msg }
    else
      let st1 := deliver_headers st a.header_lines
      let st2 := (request.process_output st1 a.output_data).2
      { st2 with curl_error := a.error_msg })

/-- Apply `hook->pre_run(this, iter)` when a hook is installed; its
modelled effect is re-signing, i.e. rewriting the request headers from
the attempt index. -/
def pre_run_apply (iter : Nat) (st : request) : request :=
  match st.hook with
  | some h => { st with headers := h.pre_run_headers iter st.headers }
  | none => st

/-- The byte count `run` adds for the outgoing header lines: each
header goes out as `name + ": " + value`. -/
def header_bytes (hs : header_list) : Nat :=
  (hs.map (fun p => p.1.length + 2 + p.2.length)).sum

/-- How one loop iteration of `request::run` exits: by throwing the
timeout error, by breaking out of the loop, or by continuing to the next
attempt. -/
inductive step_exit where
  | timeout | stop | retry
deriving DecidableEq, Repr

/-- The visible record of one attempt: its 0-based index, whether
`hook->pre_run` ran, the curl code, whether the attempt timed out, and
whether `hook->should_retry` asked for a further attempt. -/
structure attempt_record where
  idx : Nat
  pre_run_invoked : Bool
  code : curl_code
  timed_out : Bool
  hook_retry : Bool
deriving DecidableEq, Repr

/-- Default attempt record, used with `List.getD`. -/
def arec0 : attempt_record := ⟨0, false, .ok, false, false⟩

/-- Outcome of one loop iteration of `request::run`. -/
structure step_out where
  exit : step_exit
  arec : attempt_record
  r : curl_code
  st : request
  elapsed : Nat
  bytes : Nat

/-- The state of the request right after `curl_easy_perform` returns
inside one loop iteration of `request::run`: output buffer and response
headers cleared, the hook's `pre_run` applied, the transfer performed,
and the deadline zeroed again. -/
def attempt_base (oracle : Nat → attempt_result) (iter : Nat) (st : request) : request :=
  { (perform (oracle iter)
      (pre_run_apply iter { st with output_buffer := [], response_headers := [] })).2
    with timeout := 0 }

/-- The state after the `curl_easy_getinfo` calls of the CURLE_OK branch:
`attempt_base` with the response code and file time stored. -/
def attempt_ok_state (oracle : Nat → attempt_result) (iter : Nat) (st : request) : request :=
  { attempt_base oracle iter st with
    response_code := (oracle iter).response_code,
    last_modified := (oracle iter).filetime }

/-- The `request_size` accounted by one loop iteration: the outgoing
header bytes (after `pre_run`) plus the input size read before the
transfer winds it down. -/
def attempt_request_size (iter : Nat) (st : request) : Nat :=
  header_bytes
      (pre_run_apply iter
        { st with output_buffer := [], response_headers := [] }).headers +
    (pre_run_apply iter
      { st with output_buffer := [], response_headers := [] }).input_size

/-- One iteration of the retry loop of `request::run`: clear the output
buffer and response headers, run the hook's `pre_run`, account the
outgoing header bytes and the input size, perform the transfer, zero the
deadline, then throw on cancellation, continue on a transport-class
error, and on CURLE_OK store the response code and file time, accumulate
elapsed time and bytes, and let `should_retry` decide; any other code
breaks the loop. -/
def run_step (oracle : Nat → attempt_result) (iter : Nat) (st : request)
    (e b : Nat) : step_out :=
  let a := oracle iter
  let st3 := attempt_base oracle iter st
  if st3.canceled then
    ⟨.timeout, ⟨iter, st.hook.isSome, a.code, true, false⟩, a.code, st3, e, b⟩
  else if a.code.is_transport_error then
    ⟨.retry, ⟨iter, st.hook.isSome, a.code, false, false⟩, a.code, st3, e, b⟩
  else if a.code = .ok then
    let st4 := attempt_ok_state oracle iter st
    let hr := match st4.hook with
      | some h => h.should_retry iter st4.response_code st4.response_headers
      | none => false
    if hr then
      ⟨.retry, ⟨iter, st.hook.isSome, a.code, false, true⟩, a.code, st4,
        e + a.elapsed, b + attempt_request_size iter st + st4.output_buffer.length⟩
    else
      ⟨.stop, ⟨iter, st.hook.isSome, a.code, false, false⟩, a.code, st4,
        e + a.elapsed, b + attempt_request_size iter st + st4.output_buffer.length⟩
  else
    ⟨.stop, ⟨iter, st.hook.isSome, a.code, false, false⟩, a.code, st3, e, b⟩

/-- State at exit of the retry loop of `request::run`: the request, the
final curl code, the final value of the loop counter, the accumulated
elapsed time and byte count, whether the loop threw the timeout error,
and the trace of attempts actually performed. -/
structure loop_state where
  st : request
  r : curl_code
  last_iter : Nat
  elapsed : Nat
  bytes : Nat
  timed_out_exn : Bool
  trace : List attempt_record

/-- The retry loop of `request::run`: `iter` counts up as in the C
loop, and the remaining iteration budget
`max_transfer_retries - iter` is the structural fuel. -/
def run_loop (oracle : Nat → attempt_result) :
    Nat → Nat → curl_code → request → Nat → Nat → loop_state
  | 0, iter, r, st, e, b => ⟨st, r, iter, e, b, false, []⟩
  | fuel + 1, iter, _r, st, e, b =>
    let s := run_step oracle iter st e b
    match s.exit with
    | .timeout => ⟨s.st, s.r, iter, s.elapsed, s.bytes, true, [s.arec]⟩
    | .stop => ⟨s.st, s.r, iter, s.elapsed, s.bytes, false, [s.arec]⟩
    | .retry =>
      let out := run_loop oracle fuel (iter + 1) s.r s.st s.elapsed s.bytes
      ⟨out.st, out.r, out.last_iter, out.elapsed, out.bytes, out.timed_out_exn,
        s.arec :: out.trace⟩

/-- Result of `request::run`: the thrown error or the final state, the
attempt trace, and whether the high-response-code warning was logged. -/
structure run_result where
  result : Except req_error request
  trace : List attempt_record
  warned : Bool

/-- The statistics updates at the end of a successful `request::run`:
the instance totals accumulate elapsed time and bytes only when at least
one run already happened (`_run_count > 0`), `_current_run_time` always
accumulates, and `_run_count` grows by the final loop counter plus 1. -/
def run_final_state (ls : loop_state) : request :=
  let st1 :=
    if 0 < ls.st.run_count then
      { ls.st with
        total_run_time := ls.st.total_run_time + ls.elapsed,
        total_bytes_transferred := ls.st.total_bytes_transferred + ls.bytes }
    else ls.st
  { st1 with
    current_run_time := st1.current_run_time + ls.elapsed,
    run_count := st1.run_count + ls.last_iter + 1 }

/-- `request::run`: the sanity checks, the retry loop, the post-loop
throw when the final curl code is not CURLE_OK, the statistics updates
(the totals skip the first run), and the warning when the response code
is at least 300 and differs from 404. -/
def request.run (max_transfer_retries : Nat) (oracle : Nat → attempt_result)
    (st : request) : run_result :=
  if st.url = "" then ⟨.error .no_url, [], false⟩
  else if st.method = "" then ⟨.error .no_method, [], false⟩
  else if st.canceled then ⟨.error .canceled_reuse, [], false⟩
  else
    let ls := run_loop oracle max_transfer_retries 0 .ok st 0 0
    if ls.timed_out_exn then ⟨.error .timed_out, ls.trace, false⟩
    else if ls.r ≠ .ok then ⟨.error (.aborted ls.st.curl_error), ls.trace, false⟩
    else
      ⟨.ok (run_final_state ls), ls.trace,
        decide (300 ≤ (run_final_state ls).response_code ∧
          (run_final_state ls).response_code ≠ 404)⟩

/-- The process-wide statistics counters this file models (s_run_count,
s_run_time, s_total_bytes), written under s_stats_mutex. -/
structure global_stats where
  run_count : Nat
  run_time : Nat
  total_bytes : Nat
deriving DecidableEq, Repr

/-- The statistics fold in the destructor `request::~request`: the
per-instance counters are added to the process-wide totals only when the
instance transferred at least one byte. -/
def request.dtor_fold (g : global_stats) (st : request) : global_stats :=
  if 0 < st.total_bytes_transferred then
    { run_count := g.run_count + st.run_count,
      run_time := g.run_time + st.total_run_time,
      total_bytes := g.total_bytes + st.total_bytes_transferred }
  else g

/-- The state established by the `request` constructor. -/
def request.ctor : request :=
  { url := ""
    curl_error := ""
    method := ""
    headers := []
    response_headers := []
    response_code := 0
    last_modified := 0
    output_buffer := []
    input_buffer := []
    input_size := 0
    hook := none
    canceled := false
    timeout := 0
    run_count := 0
    total_run_time := 0
    current_run_time := 0
    total_bytes_transferred := 0 }

/-- A fresh instance that has been given a method and a URL, as after
`init(HTTP_GET)` and `set_url`. -/
def req_ready : request := { request.ctor with url := "http://x/", method := "GET" }

/-- An oracle whose every attempt succeeds with code 200, an empty body,
no headers and 7 units of elapsed time. -/
def oracle_ok : Nat → attempt_result :=
  fun _ => ⟨.ok, false, [], [], 200, 7, 0, ""⟩

/-- Zeroed process-wide totals. -/
def gstats0 : global_stats := ⟨0, 0, 0⟩

/-- An instance with two prior runs and 10 units of recorded run time. -/
def req_seasoned : request :=
  { req_ready with run_count := 2, total_run_time := 10 }

/-- `req_seasoned` after one more successful `oracle_ok` run: the run
count grew to 3, the totals accumulated the 7 elapsed units. -/
def req_seasoned_after : request :=
  { req_ready with
    run_count := 3, total_run_time := 17, current_run_time := 7,
    response_code := 200 }

/-- An instance that transferred 5 bytes over 2 runs. -/
def req_with_bytes : request :=
  { req_ready with
    run_count := 2, total_run_time := 10, total_bytes_transferred := 5 }

/-- `req_ready` after a single successful `oracle_ok` run: run count 1,
7 units of current run time, but zero accumulated totals (the first
run's statistics are skipped) and zero transferred bytes. -/
def req_after_first_run : request :=
  { req_ready with run_count := 1, current_run_time := 7, response_code := 200 }

/-- An instance with a pending deadline at wall-clock 5. -/
def req_deadline : request := { req_ready with timeout := 5 }

/-- A canceled instance. -/
def req_canceled : request := { req_ready with canceled := true }

/-- An oracle whose every attempt is interrupted by the timeout
watchdog. -/
def oracle_timeout : Nat → attempt_result :=
  fun _ => ⟨.write_error, true, [], [], 0, 1, 0, "timed out"⟩

/-- An oracle delivering one header line `X: y` and two body bytes. -/
def oracle_data : Nat → attempt_result :=
  fun _ => ⟨.ok, false, [['X', ':', ' ', 'y', '\r', '\n']], [9, 8], 200, 3, 0, ""⟩

/-- `req_ready` after one successful `oracle_data` run. -/
def req_after_data_run : request :=
  { req_ready with
    run_count := 1, current_run_time := 3, response_code := 200,
    output_buffer := [9, 8],
    response_headers := [(['X'], ['y'])] }

theorem process_header_snd (st : request) (data : List Char) :
    (request.process_header st data).2 =
      if st.canceled then st
      else
        match parse_header_line data with
        | none => st
        | some (n, v) =>
          { st with response_headers := header_assign st.response_headers n v } := by
  cases h : st.canceled <;> simp [request.process_header, h]

theorem process_output_snd (st : request) (data : List Nat) :
    (request.process_output st data).2 =
      if st.canceled then st
      else { st with output_buffer := st.output_buffer ++ data } := by
  cases h : st.canceled <;> simp [request.process_output, h]

theorem parse_header_lines_cons (m : header_list) (l : List Char)
    (ls : List (List Char)) :
    parse_header_lines m (l :: ls) =
      parse_header_lines
        (match parse_header_line l with
         | none => m
         | some (n, v) => header_assign m n v) ls := rfl

theorem process_header_canceled_eq (st : request) (data : List Char)
    (h : st.canceled = true) : (request.process_header st data).2 = st := by
  simp [request.process_header, h]

theorem deliver_headers_canceled (lines : List (List Char)) :
    ∀ st : request, st.canceled = true → deliver_headers st lines = st := by
  induction lines with
  | nil => intro st _; rfl
  | cons l ls ih =>
    intro st h
    have hfold : deliver_headers st (l :: ls) =
        deliver_headers (request.process_header st l).2 ls := rfl
    rw [hfold, process_header_canceled_eq st l h, ih st h]

theorem process_header_none (st : request) (data : List Char)
    (h : st.canceled = false) (hp : parse_header_line data = none) :
    (request.process_header st data).2 = st := by
  simp [request.process_header, h, hp]

theorem process_header_some (st : request) (data n v : List Char)
    (h : st.canceled = false) (hp : parse_header_line data = some (n, v)) :
    (request.process_header st data).2 =
      { st with response_headers := header_assign st.response_headers n v } := by
  simp [request.process_header, h, hp]

theorem deliver_headers_ok (lines : List (List Char)) :
    ∀ st : request, st.canceled = false →
      deliver_headers st lines =
        { st with response_headers := parse_header_lines st.response_headers lines } := by
  induction lines with
  | nil => intro st _; rfl
  | cons l ls ih =>
    intro st h
    have hfold : deliver_headers st (l :: ls) =
        deliver_headers (request.process_header st l).2 ls := rfl
    cases hp : parse_header_line l with
    | none =>
      rw [hfold, process_header_none st l h hp, ih st h, parse_header_lines_cons, hp]
    | some nv =>
      obtain ⟨n, v⟩ := nv
      rw [hfold, process_header_some st l n v h hp,
        ih { st with response_headers := header_assign st.response_headers n v } h,
        parse_header_lines_cons, hp]

theorem perform_fst (a : attempt_result) (st : request) :
    (perform a st).1 = a.code := rfl

theorem perform_snd_timed (a : attempt_result) (st : request)
    (h : a.timed_out = true) :
    (perform a st).2 = { st with canceled := true, curl_error := a.error_msg } := by
  simp [perform, h]

theorem perform_snd_already_canceled (a : attempt_result) (st : request)
    (ht : a.timed_out = false) (hc : st.canceled = true) :
    (perform a st).2 = { st with curl_error := a.error_msg } := by
  simp only [perform, ht, Bool.false_eq_true, if_false]
  rw [deliver_headers_canceled a.header_lines st hc, process_output_snd, hc]
  simp
  exact hc

theorem perform_snd_ok (a : attempt_result) (st : request)
    (ht : a.timed_out = false) (hc : st.canceled = false) :
    (perform a st).2 =
      { st with
        response_headers := parse_header_lines st.response_headers a.header_lines,
        output_buffer := st.output_buffer ++ a.output_data,
        curl_error := a.error_msg } := by
  simp only [perform, ht, Bool.false_eq_true, if_false]
  rw [deliver_headers_ok a.header_lines st hc, process_output_snd]
  simp [hc]

theorem pre_run_apply_eq (iter : Nat) (st : request) :
    pre_run_apply iter st =
      match st.hook with
      | some h => { st with headers := h.pre_run_headers iter st.headers }
      | none => st := rfl

theorem pre_run_apply_frame (iter : Nat) (st : request) :
    (pre_run_apply iter st).hook = st.hook ∧
    (pre_run_apply iter st).canceled = st.canceled ∧
    (pre_run_apply iter st).run_count = st.run_count ∧
    (pre_run_apply iter st).total_run_time = st.total_run_time ∧
    (pre_run_apply iter st).total_bytes_transferred = st.total_bytes_transferred ∧
    (pre_run_apply iter st).current_run_time = st.current_run_time ∧
    (pre_run_apply iter st).url = st.url ∧
    (pre_run_apply iter st).method = st.method ∧
    (pre_run_apply iter st).input_size = st.input_size ∧
    (pre_run_apply iter st).input_buffer = st.input_buffer ∧
    (pre_run_apply iter st).output_buffer = st.output_buffer ∧
    (pre_run_apply iter st).response_headers = st.response_headers := by
  cases h : st.hook <;> simp [pre_run_apply, h]

theorem perform_snd_frame (a : attempt_result) (st : request) :
    (perform a st).2.hook = st.hook ∧
    (perform a st).2.run_count = st.run_count ∧
    (perform a st).2.total_run_time = st.total_run_time ∧
    (perform a st).2.total_bytes_transferred = st.total_bytes_transferred ∧
    (perform a st).2.current_run_time = st.current_run_time ∧
    (perform a st).2.input_size = st.input_size ∧
    (perform a st).2.input_buffer = st.input_buffer ∧
    (perform a st).2.url = st.url ∧
    (perform a st).2.method = st.method ∧
    (perform a st).2.headers = st.headers := by
  cases ht : a.timed_out with
  | true =>
    rw [perform_snd_timed a st ht]
    exact ⟨rfl, rfl, rfl, rfl, rfl, rfl, rfl, rfl, rfl, rfl⟩
  | false =>
    cases hc : st.canceled with
    | true =>
      rw [perform_snd_already_canceled a st ht hc]
      exact ⟨rfl, rfl, rfl, rfl, rfl, rfl, rfl, rfl, rfl, rfl⟩
    | false =>
      rw [perform_snd_ok a st ht hc]
      exact ⟨rfl, rfl, rfl, rfl, rfl, rfl, rfl, rfl, rfl, rfl⟩

theorem perform_snd_canceled_flag (a : attempt_result) (st : request)
    (ht : a.timed_out = false) :
    (perform a st).2.canceled = st.canceled := by
  cases hc : st.canceled with
  | true => rw [perform_snd_already_canceled a st ht hc]; exact hc
  | false => rw [perform_snd_ok a st ht hc]; exact hc

theorem perform_snd_canceled_mono (a : attempt_result) (st : request)
    (hc : st.canceled = true) : (perform a st).2.canceled = true := by
  cases ht : a.timed_out with
  | true => rw [perform_snd_timed a st ht]
  | false => rw [perform_snd_already_canceled a st ht hc]; exact hc

theorem run_step_arec (o : Nat → attempt_result) (iter : Nat) (st : request)
    (e b : Nat) :
    (run_step o iter st e b).arec.idx = iter ∧
    (run_step o iter st e b).arec.pre_run_invoked = st.hook.isSome ∧
    (run_step o iter st e b).arec.code = (o iter).code ∧
    (run_step o iter st e b).r = (o iter).code := by
  simp only [run_step]
  split
  · exact ⟨rfl, rfl, rfl, rfl⟩
  · split
    · exact ⟨rfl, rfl, rfl, rfl⟩
    · split
      · split
        · exact ⟨rfl, rfl, rfl, rfl⟩
        · exact ⟨rfl, rfl, rfl, rfl⟩
      · exact ⟨rfl, rfl, rfl, rfl⟩

theorem run_step_exit_retry (o : Nat → attempt_result) (iter : Nat) (st : request)
    (e b : Nat) :
    (run_step o iter st e b).exit = .retry →
      (run_step o iter st e b).arec.code.is_transport_error = true ∨
      (run_step o iter st e b).arec.hook_retry = true := by
  simp only [run_step]
  split
  · exact fun h => nomatch h
  · split
    · next htr => exact fun _ => Or.inl htr
    · split
      · split
        · exact fun _ => Or.inr rfl
        · exact fun h => nomatch h
      · exact fun h => nomatch h

theorem run_step_timed_iff (o : Nat → attempt_result) (iter : Nat) (st : request)
    (e b : Nat) :
    ((run_step o iter st e b).arec.timed_out = true ↔
      (run_step o iter st e b).exit = .timeout) := by
  simp only [run_step]
  split
  · exact ⟨fun _ => rfl, fun _ => rfl⟩
  · split
    · exact ⟨(fun h => nomatch h), (fun h => nomatch h)⟩
    · split
      · split
        · exact ⟨(fun h => nomatch h), (fun h => nomatch h)⟩
        · exact ⟨(fun h => nomatch h), (fun h => nomatch h)⟩
      · exact ⟨(fun h => nomatch h), (fun h => nomatch h)⟩

theorem run_step_not_timeout_canceled (o : Nat → attempt_result) (iter : Nat)
    (st : request) (e b : Nat) :
    (run_step o iter st e b).exit ≠ .timeout →
      (run_step o iter st e b).st.canceled = false := by
  simp only [run_step]
  split
  · exact fun h => absurd rfl h
  · next hcan =>
    simp only [Bool.not_eq_true] at hcan
    split
    · exact fun _ => hcan
    · split
      · split
        · exact fun _ => hcan
        · exact fun _ => hcan
      · exact fun _ => hcan

theorem run_step_frame (o : Nat → attempt_result) (iter : Nat) (st : request)
    (e b : Nat) :
    (run_step o iter st e b).st.hook = st.hook ∧
    (run_step o iter st e b).st.run_count = st.run_count ∧
    (run_step o iter st e b).st.total_run_time = st.total_run_time ∧
    (run_step o iter st e b).st.total_bytes_transferred = st.total_bytes_transferred ∧
    (run_step o iter st e b).st.current_run_time = st.current_run_time := by
  obtain ⟨ph, prc, ptr, ptb, pcr, _, _, _, _, _⟩ :=
    perform_snd_frame (o iter)
      (pre_run_apply iter { st with output_buffer := [], response_headers := [] })
  obtain ⟨qh, _, qrc, qtr, qtb, qcr, _, _, _, _, _, _⟩ :=
    pre_run_apply_frame iter ({ st with output_buffer := [], response_headers := [] })
  simp only [run_step]
  split
  all_goals try split
  all_goals try split
  all_goals try split
  all_goals
    exact ⟨ph.trans qh, prc.trans qrc, ptr.trans qtr, ptb.trans qtb, pcr.trans qcr⟩

theorem attempt_base_not_canceled_timed (o : Nat → attempt_result) (iter : Nat)
    (st : request) (h : (attempt_base o iter st).canceled = false) :
    (o iter).timed_out = false := by
  cases hta : (o iter).timed_out
  · rfl
  · unfold attempt_base at h
    rw [perform_snd_timed _ _ hta] at h
    exact Bool.noConfusion h

theorem attempt_base_state (o : Nat → attempt_result) (iter : Nat) (st : request)
    (hc : st.canceled = false) (hta : (o iter).timed_out = false) :
    attempt_base o iter st =
      { pre_run_apply iter { st with output_buffer := [], response_headers := [] } with
        response_headers := parse_header_lines [] (o iter).header_lines,
        output_buffer := (o iter).output_data,
        curl_error := (o iter).error_msg,
        timeout := 0 } := by
  obtain ⟨-, hpc, -, -, -, -, -, -, -, -, hpo, hpr⟩ :=
    pre_run_apply_frame iter { st with output_buffer := [], response_headers := [] }
  have hst2c :
      (pre_run_apply iter
        { st with output_buffer := [], response_headers := [] }).canceled = false := by
    rw [hpc]; exact hc
  unfold attempt_base
  rw [perform_snd_ok _ _ hta hst2c, hpo, hpr]
  rfl

theorem run_step_ok_state (o : Nat → attempt_result) (iter : Nat) (st : request)
    (e b : Nat) (hc : st.canceled = false) :
    (run_step o iter st e b).exit ≠ .timeout → (o iter).code = .ok →
      (run_step o iter st e b).st.response_code = (o iter).response_code ∧
      (run_step o iter st e b).st.output_buffer = (o iter).output_data ∧
      (run_step o iter st e b).st.response_headers =
        parse_header_lines [] (o iter).header_lines := by
  simp only [run_step]
  split
  · exact fun h _ => absurd rfl h
  · next hcan =>
    have hbc : (attempt_base o iter st).canceled = false := by
      simp only [Bool.not_eq_true] at hcan
      exact hcan
    have hta := attempt_base_not_canceled_timed o iter st hbc
    have hbase := attempt_base_state o iter st hc hta
    split
    · next htr => intro _ hok; rw [hok] at htr; exact absurd htr (by decide)
    · split
      · split
        · intro _ _
          unfold attempt_ok_state
          rw [hbase]
          exact ⟨rfl, rfl, rfl⟩
        · intro _ _
          unfold attempt_ok_state
          rw [hbase]
          exact ⟨rfl, rfl, rfl⟩
      · next hne => exact fun _ hok => absurd hok hne

theorem run_loop_zero (o : Nat → attempt_result) (iter : Nat) (r : curl_code)
    (st : request) (e b : Nat) :
    run_loop o 0 iter r st e b = ⟨st, r, iter, e, b, false, []⟩ := rfl

theorem run_loop_succ_timeout (o : Nat → attempt_result) (fuel iter : Nat)
    (r : curl_code) (st : request) (e b : Nat)
    (h : (run_step o iter st e b).exit = .timeout) :
    run_loop o (fuel + 1) iter r st e b =
      ⟨(run_step o iter st e b).st, (run_step o iter st e b).r, iter,
        (run_step o iter st e b).elapsed, (run_step o iter st e b).bytes, true,
        [(run_step o iter st e b).arec]⟩ := by
  simp only [run_loop, h]

theorem run_loop_succ_stop (o : Nat → attempt_result) (fuel iter : Nat)
    (r : curl_code) (st : request) (e b : Nat)
    (h : (run_step o iter st e b).exit = .stop) :
    run_loop o (fuel + 1) iter r st e b =
      ⟨(run_step o iter st e b).st, (run_step o iter st e b).r, iter,
        (run_step o iter st e b).elapsed, (run_step o iter st e b).bytes, false,
        [(run_step o iter st e b).arec]⟩ := by
  simp only [run_loop, h]

theorem run_loop_succ_retry (o : Nat → attempt_result) (fuel iter : Nat)
    (r : curl_code) (st : request) (e b : Nat)
    (h : (run_step o iter st e b).exit = .retry) :
    run_loop o (fuel + 1) iter r st e b =
      ⟨(run_loop o fuel (iter + 1) (run_step o iter st e b).r
          (run_step o iter st e b).st (run_step o iter st e b).elapsed
          (run_step o iter st e b).bytes).st,
        (run_loop o fuel (iter + 1) (run_step o iter st e b).r
          (run_step o iter st e b).st (run_step o iter st e b).elapsed
          (run_step o iter st e b).bytes).r,
        (run_loop o fuel (iter + 1) (run_step o iter st e b).r
          (run_step o iter st e b).st (run_step o iter st e b).elapsed
          (run_step o iter st e b).bytes).last_iter,
        (run_loop o fuel (iter + 1) (run_step o iter st e b).r
          (run_step o iter st e b).st (run_step o iter st e b).elapsed
          (run_step o iter st e b).bytes).elapsed,
        (run_loop o fuel (iter + 1) (run_step o iter st e b).r
          (run_step o iter st e b).st (run_step o iter st e b).elapsed
          (run_step o iter st e b).bytes).bytes,
        (run_loop o fuel (iter + 1) (run_step o iter st e b).r
          (run_step o iter st e b).st (run_step o iter st e b).elapsed
          (run_step o iter st e b).bytes).timed_out_exn,
        (run_step o iter st e b).arec ::
          (run_loop o fuel (iter + 1) (run_step o iter st e b).r
            (run_step o iter st e b).st (run_step o iter st e b).elapsed
            (run_step o iter st e b).bytes).trace⟩ := by
  simp only [run_loop, h]

theorem run_loop_len (o : Nat → attempt_result) :
    ∀ (fuel iter : Nat) (r : curl_code) (st : request) (e b : Nat),
      (run_loop o fuel iter r st e b).trace.length ≤ fuel := by
  intro fuel
  induction fuel with
  | zero =>
    intro iter r st e b
    rw [run_loop_zero]
    exact Nat.le_refl 0
  | succ n ih =>
    intro iter r st e b
    cases hex : (run_step o iter st e b).exit with
    | timeout =>
      rw [run_loop_succ_timeout o n iter r st e b hex]
      exact Nat.succ_le_succ (Nat.zero_le n)
    | stop =>
      rw [run_loop_succ_stop o n iter r st e b hex]
      exact Nat.succ_le_succ (Nat.zero_le n)
    | retry =>
      rw [run_loop_succ_retry o n iter r st e b hex]
      exact Nat.succ_le_succ (ih _ _ _ _ _)

theorem run_loop_trace_nil (o : Nat → attempt_result) :
    ∀ (fuel iter : Nat) (r : curl_code) (st : request) (e b : Nat),
      (run_loop o fuel iter r st e b).trace = [] →
      run_loop o fuel iter r st e b = ⟨st, r, iter, e, b, false, []⟩ := by
  intro fuel
  cases fuel with
  | zero => intro iter r st e b _; exact run_loop_zero o iter r st e b
  | succ n =>
    intro iter r st e b h
    cases hex : (run_step o iter st e b).exit with
    | timeout => rw [run_loop_succ_timeout o n iter r st e b hex] at h; cases h
    | stop => rw [run_loop_succ_stop o n iter r st e b hex] at h; cases h
    | retry => rw [run_loop_succ_retry o n iter r st e b hex] at h; cases h

theorem run_loop_get (o : Nat → attempt_result) :
    ∀ (fuel iter : Nat) (r : curl_code) (st : request) (e b k : Nat),
      k < (run_loop o fuel iter r st e b).trace.length →
      ((run_loop o fuel iter r st e b).trace.getD k arec0).idx = iter + k ∧
      ((run_loop o fuel iter r st e b).trace.getD k arec0).pre_run_invoked
        = st.hook.isSome ∧
      ((run_loop o fuel iter r st e b).trace.getD k arec0).code
        = (o (iter + k)).code := by
  intro fuel
  induction fuel with
  | zero =>
    intro iter r st e b k hk
    rw [run_loop_zero] at hk
    exact absurd hk (Nat.not_lt_zero k)
  | succ n ih =>
    intro iter r st e b k hk
    obtain ⟨hidx, hpre, hcode, -⟩ := run_step_arec o iter st e b
    cases hex : (run_step o iter st e b).exit with
    | timeout =>
      rw [run_loop_succ_timeout o n iter r st e b hex] at hk ⊢
      have hk0 : k = 0 := Nat.lt_one_iff.mp (by simpa using hk)
      subst hk0
      simpa using ⟨hidx, hpre, hcode⟩
    | stop =>
      rw [run_loop_succ_stop o n iter r st e b hex] at hk ⊢
      have hk0 : k = 0 := Nat.lt_one_iff.mp (by simpa using hk)
      subst hk0
      simpa using ⟨hidx, hpre, hcode⟩
    | retry =>
      rw [run_loop_succ_retry o n iter r st e b hex] at hk ⊢
      cases k with
      | zero =>
        simpa using ⟨hidx, hpre, hcode⟩
      | succ k2 =>
        simp only [List.getD_cons_succ]
        have hk2 : k2 <
            (run_loop o n (iter + 1) (run_step o iter st e b).r
              (run_step o iter st e b).st (run_step o iter st e b).elapsed
              (run_step o iter st e b).bytes).trace.length := by
          simpa using hk
        obtain ⟨h1, h2, h3⟩ := ih (iter + 1) (run_step o iter st e b).r
          (run_step o iter st e b).st (run_step o iter st e b).elapsed
          (run_step o iter st e b).bytes k2 hk2
        have hshift : iter + 1 + k2 = iter + (k2 + 1) := by omega
        refine ⟨?_, ?_, ?_⟩
        · rw [h1, hshift]
        · rw [h2, (run_step_frame o iter st e b).1]
        · rw [h3, hshift]

theorem run_loop_retry_cond (o : Nat → attempt_result) :
    ∀ (fuel iter : Nat) (r : curl_code) (st : request) (e b k : Nat),
      k + 1 < (run_loop o fuel iter r st e b).trace.length →
      (((run_loop o fuel iter r st e b).trace.getD k arec0).code.is_transport_error
          = true ∨
        ((run_loop o fuel iter r st e b).trace.getD k arec0).hook_retry = true) ∧
      ((run_loop o fuel iter r st e b).trace.getD k arec0).timed_out = false := by
  intro fuel
  induction fuel with
  | zero =>
    intro iter r st e b k hk
    rw [run_loop_zero] at hk
    exact absurd hk (Nat.not_lt_zero _)
  | succ n ih =>
    intro iter r st e b k hk
    cases hex : (run_step o iter st e b).exit with
    | timeout =>
      rw [run_loop_succ_timeout o n iter r st e b hex] at hk
      simp at hk
    | stop =>
      rw [run_loop_succ_stop o n iter r st e b hex] at hk
      simp at hk
    | retry =>
      rw [run_loop_succ_retry o n iter r st e b hex] at hk ⊢
      cases k with
      | zero =>
        have hretry := run_step_exit_retry o iter st e b hex
        have htod : (run_step o iter st e b).arec.timed_out = false := by
          cases h : (run_step o iter st e b).arec.timed_out
          · rfl
          · rw [(run_step_timed_iff o iter st e b).mp h] at hex
            cases hex
        simpa using ⟨hretry, htod⟩
      | succ k2 =>
        simp only [List.getD_cons_succ]
        exact ih (iter + 1) (run_step o iter st e b).r (run_step o iter st e b).st
          (run_step o iter st e b).elapsed (run_step o iter st e b).bytes k2
          (by simpa using hk)

theorem run_loop_last_r (o : Nat → attempt_result) :
    ∀ (fuel iter : Nat) (r : curl_code) (st : request) (e b : Nat),
      (run_loop o fuel iter r st e b).trace ≠ [] →
      (run_loop o fuel iter r st e b).r =
        ((run_loop o fuel iter r st e b).trace.getD
          ((run_loop o fuel iter r st e b).trace.length - 1) arec0).code := by
  intro fuel
  induction fuel with
  | zero =>
    intro iter r st e b h
    rw [run_loop_zero] at h
    exact absurd rfl h
  | succ n ih =>
    intro iter r st e b _
    obtain ⟨-, -, hcode, hr⟩ := run_step_arec o iter st e b
    cases hex : (run_step o iter st e b).exit with
    | timeout =>
      rw [run_loop_succ_timeout o n iter r st e b hex]
      simpa using hr.trans hcode.symm
    | stop =>
      rw [run_loop_succ_stop o n iter r st e b hex]
      simpa using hr.trans hcode.symm
    | retry =>
      rw [run_loop_succ_retry o n iter r st e b hex]
      cases htr : (run_loop o n (iter + 1) (run_step o iter st e b).r
          (run_step o iter st e b).st (run_step o iter st e b).elapsed
          (run_step o iter st e b).bytes).trace with
      | nil =>
        have hnil := run_loop_trace_nil o n (iter + 1) (run_step o iter st e b).r
          (run_step o iter st e b).st (run_step o iter st e b).elapsed
          (run_step o iter st e b).bytes htr
        rw [hnil]
        simpa using hr.trans hcode.symm
      | cons a l =>
        have hih := ih (iter + 1) (run_step o iter st e b).r
          (run_step o iter st e b).st (run_step o iter st e b).elapsed
          (run_step o iter st e b).bytes (by rw [htr]; exact List.cons_ne_nil a l)
        rw [htr] at hih
        simp only [htr, List.length_cons, Nat.add_sub_cancel, List.getD_cons_succ]
        simpa using hih

theorem run_loop_exn_iff (o : Nat → attempt_result) :
    ∀ (fuel iter : Nat) (r : curl_code) (st : request) (e b : Nat),
      ((run_loop o fuel iter r st e b).timed_out_exn = true ↔
        ((run_loop o fuel iter r st e b).trace ≠ [] ∧
          ((run_loop o fuel iter r st e b).trace.getD
            ((run_loop o fuel iter r st e b).trace.length - 1) arec0).timed_out
            = true)) := by
  intro fuel
  induction fuel with
  | zero =>
    intro iter r st e b
    rw [run_loop_zero]
    simp
  | succ n ih =>
    intro iter r st e b
    cases hex : (run_step o iter st e b).exit with
    | timeout =>
      rw [run_loop_succ_timeout o n iter r st e b hex]
      have ht := (run_step_timed_iff o iter st e b).mpr hex
      simpa using ht
    | stop =>
      rw [run_loop_succ_stop o n iter r st e b hex]
      have ht : (run_step o iter st e b).arec.timed_out = false := by
        cases h : (run_step o iter st e b).arec.timed_out
        · rfl
        · rw [(run_step_timed_iff o iter st e b).mp h] at hex
          cases hex
      simpa using ht
    | retry =>
      rw [run_loop_succ_retry o n iter r st e b hex]
      have ht : (run_step o iter st e b).arec.timed_out = false := by
        cases h : (run_step o iter st e b).arec.timed_out
        · rfl
        · rw [(run_step_timed_iff o iter st e b).mp h] at hex
          cases hex
      cases htr : (run_loop o n (iter + 1) (run_step o iter st e b).r
          (run_step o iter st e b).st (run_step o iter st e b).elapsed
          (run_step o iter st e b).bytes).trace with
      | nil =>
        have hnil := run_loop_trace_nil o n (iter + 1) (run_step o iter st e b).r
          (run_step o iter st e b).st (run_step o iter st e b).elapsed
          (run_step o iter st e b).bytes htr
        rw [hnil]
        simpa using ht
      | cons a l =>
        have hih := ih (iter + 1) (run_step o iter st e b).r
          (run_step o iter st e b).st (run_step o iter st e b).elapsed
          (run_step o iter st e b).bytes
        rw [htr] at hih
        simp only [htr, List.length_cons, Nat.add_sub_cancel, List.getD_cons_succ]
        simp only [List.cons_ne_nil, ne_eq, not_false_eq_true, true_and] at hih ⊢
        simpa using hih

theorem run_loop_frame (o : Nat → attempt_result) :
    ∀ (fuel iter : Nat) (r : curl_code) (st : request) (e b : Nat),
      (run_loop o fuel iter r st e b).st.hook = st.hook ∧
      (run_loop o fuel iter r st e b).st.run_count = st.run_count ∧
      (run_loop o fuel iter r st e b).st.total_run_time = st.total_run_time ∧
      (run_loop o fuel iter r st e b).st.total_bytes_transferred
        = st.total_bytes_transferred ∧
      (run_loop o fuel iter r st e b).st.current_run_time = st.current_run_time := by
  intro fuel
  induction fuel with
  | zero =>
    intro iter r st e b
    rw [run_loop_zero]
    exact ⟨rfl, rfl, rfl, rfl, rfl⟩
  | succ n ih =>
    intro iter r st e b
    obtain ⟨f1, f2, f3, f4, f5⟩ := run_step_frame o iter st e b
    cases hex : (run_step o iter st e b).exit with
    | timeout =>
      rw [run_loop_succ_timeout o n iter r st e b hex]
      exact ⟨f1, f2, f3, f4, f5⟩
    | stop =>
      rw [run_loop_succ_stop o n iter r st e b hex]
      exact ⟨f1, f2, f3, f4, f5⟩
    | retry =>
      rw [run_loop_succ_retry o n iter r st e b hex]
      obtain ⟨g1, g2, g3, g4, g5⟩ := ih (iter + 1) (run_step o iter st e b).r
        (run_step o iter st e b).st (run_step o iter st e b).elapsed
        (run_step o iter st e b).bytes
      exact ⟨g1.trans f1, g2.trans f2, g3.trans f3, g4.trans f4, g5.trans f5⟩

theorem run_loop_canceled (o : Nat → attempt_result) :
    ∀ (fuel iter : Nat) (r : curl_code) (st : request) (e b : Nat),
      st.canceled = false →
      (run_loop o fuel iter r st e b).timed_out_exn = false →
      (run_loop o fuel iter r st e b).st.canceled = false := by
  intro fuel
  induction fuel with
  | zero =>
    intro iter r st e b hc _
    rw [run_loop_zero]
    exact hc
  | succ n ih =>
    intro iter r st e b hc hexn
    cases hex : (run_step o iter st e b).exit with
    | timeout =>
      rw [run_loop_succ_timeout o n iter r st e b hex] at hexn
      cases hexn
    | stop =>
      rw [run_loop_succ_stop o n iter r st e b hex]
      exact run_step_not_timeout_canceled o iter st e b (by rw [hex]; exact nofun)
    | retry =>
      rw [run_loop_succ_retry o n iter r st e b hex] at hexn ⊢
      exact ih (iter + 1) (run_step o iter st e b).r (run_step o iter st e b).st
        (run_step o iter st e b).elapsed (run_step o iter st e b).bytes
        (run_step_not_timeout_canceled o iter st e b (by rw [hex]; exact nofun))
        hexn

theorem run_loop_final_ok (o : Nat → attempt_result) :
    ∀ (fuel iter : Nat) (r : curl_code) (st : request) (e b : Nat),
      st.canceled = false →
      (run_loop o fuel iter r st e b).timed_out_exn = false →
      (run_loop o fuel iter r st e b).trace ≠ [] →
      ((run_loop o fuel iter r st e b).trace.getD
        ((run_loop o fuel iter r st e b).trace.length - 1) arec0).code = .ok →
      (run_loop o fuel iter r st e b).st.response_code =
        (o (iter + (run_loop o fuel iter r st e b).trace.length - 1)).response_code ∧
      (run_loop o fuel iter r st e b).st.output_buffer =
        (o (iter + (run_loop o fuel iter r st e b).trace.length - 1)).output_data ∧
      (run_loop o fuel iter r st e b).st.response_headers =
        parse_header_lines []
          ((o (iter + (run_loop o fuel iter r st e b).trace.length - 1)).header_lines) := by
  intro fuel
  induction fuel with
  | zero =>
    intro iter r st e b _ _ hne _
    rw [run_loop_zero] at hne
    exact absurd rfl hne
  | succ n ih =>
    intro iter r st e b hc hexn hne hok
    obtain ⟨-, -, hcode, -⟩ := run_step_arec o iter st e b
    cases hex : (run_step o iter st e b).exit with
    | timeout =>
      rw [run_loop_succ_timeout o n iter r st e b hex] at hexn
      cases hexn
    | stop =>
      rw [run_loop_succ_stop o n iter r st e b hex] at hok ⊢
      simp only [List.length_cons, List.length_nil, Nat.zero_add,
        Nat.add_sub_cancel, List.getD_cons_zero] at hok ⊢
      have hokc : (o iter).code = .ok := by rw [← hcode]; exact hok
      exact run_step_ok_state o iter st e b hc (by rw [hex]; exact nofun) hokc
    | retry =>
      rw [run_loop_succ_retry o n iter r st e b hex] at hok hexn ⊢
      dsimp only at hok hexn ⊢
      cases htr : (run_loop o n (iter + 1) (run_step o iter st e b).r
          (run_step o iter st e b).st (run_step o iter st e b).elapsed
          (run_step o iter st e b).bytes).trace with
      | nil =>
        have hnil := run_loop_trace_nil o n (iter + 1) (run_step o iter st e b).r
          (run_step o iter st e b).st (run_step o iter st e b).elapsed
          (run_step o iter st e b).bytes htr
        rw [hnil] at hok ⊢
        simp only [List.length_cons, List.length_nil, Nat.zero_add,
          Nat.add_sub_cancel, List.getD_cons_zero] at hok ⊢
        have hokc : (o iter).code = .ok := by rw [← hcode]; exact hok
        exact run_step_ok_state o iter st e b hc (by rw [hex]; exact nofun) hokc
      | cons a l =>
        have hc2 : (run_step o iter st e b).st.canceled = false :=
          run_step_not_timeout_canceled o iter st e b (by rw [hex]; exact nofun)
        rw [htr] at hok
        have hih := ih (iter + 1) (run_step o iter st e b).r
          (run_step o iter st e b).st (run_step o iter st e b).elapsed
          (run_step o iter st e b).bytes hc2 hexn
          (by rw [htr]; exact List.cons_ne_nil a l)
        rw [htr] at hih
        have hres := hih (by
          simp only [List.length_cons, Nat.add_sub_cancel] at hok ⊢
          simpa using hok)
        have hidx : iter + 1 + (a :: l).length - 1 =
            iter + ((run_step o iter st e b).arec :: a :: l).length - 1 := by
          simp only [List.length_cons]
          omega
        rw [hidx] at hres
        exact hres

theorem run_final_state_frame (ls : loop_state) :
    (run_final_state ls).response_code = ls.st.response_code ∧
    (run_final_state ls).output_buffer = ls.st.output_buffer ∧
    (run_final_state ls).response_headers = ls.st.response_headers ∧
    (run_final_state ls).hook = ls.st.hook ∧
    (run_final_state ls).canceled = ls.st.canceled ∧
    (run_final_state ls).run_count = ls.st.run_count + ls.last_iter + 1 := by
  unfold run_final_state
  split <;> exact ⟨rfl, rfl, rfl, rfl, rfl, rfl⟩

theorem run_final_state_totals_pos (ls : loop_state) (h : 0 < ls.st.run_count) :
    (run_final_state ls).total_run_time = ls.st.total_run_time + ls.elapsed ∧
    (run_final_state ls).total_bytes_transferred
      = ls.st.total_bytes_transferred + ls.bytes ∧
    (run_final_state ls).current_run_time
      = ls.st.current_run_time + ls.elapsed := by
  unfold run_final_state
  rw [if_pos h]
  exact ⟨rfl, rfl, rfl⟩

theorem run_final_state_totals_zero (ls : loop_state) (h : ¬ 0 < ls.st.run_count) :
    (run_final_state ls).total_run_time = ls.st.total_run_time ∧
    (run_final_state ls).total_bytes_transferred = ls.st.total_bytes_transferred ∧
    (run_final_state ls).current_run_time
      = ls.st.current_run_time + ls.elapsed := by
  unfold run_final_state
  rw [if_neg h]
  exact ⟨rfl, rfl, rfl⟩

theorem run_timeout_eq (max : Nat) (o : Nat → attempt_result) (st : request)
    (hu : ¬ st.url = "") (hm : ¬ st.method = "") (hc : st.canceled = false)
    (hexn : (run_loop o max 0 .ok st 0 0).timed_out_exn = true) :
    request.run max o st =
      ⟨.error .timed_out, (run_loop o max 0 .ok st 0 0).trace, false⟩ := by
  simp [request.run, hu, hm, hc, hexn]

theorem run_abort_eq (max : Nat) (o : Nat → attempt_result) (st : request)
    (hu : ¬ st.url = "") (hm : ¬ st.method = "") (hc : st.canceled = false)
    (hexn : (run_loop o max 0 .ok st 0 0).timed_out_exn = false)
    (hr : (run_loop o max 0 .ok st 0 0).r ≠ .ok) :
    request.run max o st =
      ⟨.error (.aborted (run_loop o max 0 .ok st 0 0).st.curl_error),
        (run_loop o max 0 .ok st 0 0).trace, false⟩ := by
  simp [request.run, hu, hm, hc, hexn, hr]

theorem run_ok_eq (max : Nat) (o : Nat → attempt_result) (st : request)
    (hu : ¬ st.url = "") (hm : ¬ st.method = "") (hc : st.canceled = false)
    (hexn : (run_loop o max 0 .ok st 0 0).timed_out_exn = false)
    (hr : (run_loop o max 0 .ok st 0 0).r = .ok) :
    request.run max o st =
      ⟨.ok (run_final_state (run_loop o max 0 .ok st 0 0)),
        (run_loop o max 0 .ok st 0 0).trace,
        decide (300 ≤ (run_final_state (run_loop o max 0 .ok st 0 0)).response_code ∧
          (run_final_state (run_loop o max 0 .ok st 0 0)).response_code ≠ 404)⟩ := by
  simp [request.run, hu, hm, hc, hexn, hr]

theorem truncate_at_mem (c : Char) :
    ∀ (xs : List Char) (x : Char), x ∈ truncate_at c xs → x ∈ xs ∧ x ≠ c := by
  intro xs
  induction xs with
  | nil => intro x h; cases h
  | cons y ys ih =>
    intro x h
    unfold truncate_at at h
    by_cases hy : y = c
    · rw [if_pos hy] at h; cases h
    · rw [if_neg hy] at h
      cases h with
      | head => exact ⟨List.mem_cons_self y ys, hy⟩
      | tail _ h2 =>
        obtain ⟨h3, h4⟩ := ih x h2
        exact ⟨List.mem_cons_of_mem y h3, h4⟩

theorem truncate_at_append_of_not_mem (c : Char) :
    ∀ (xs ys : List Char), c ∉ xs →
      truncate_at c (xs ++ ys) = xs ++ truncate_at c ys := by
  intro xs
  induction xs with
  | nil => intro ys _; rfl
  | cons x xs2 ih =>
    intro ys h
    have hx : ¬ x = c := fun hxc => h (by rw [hxc]; exact List.mem_cons_self c xs2)
    simp only [List.cons_append, truncate_at, List.append_eq]
    rw [if_neg hx, ih ys (fun hcm => h (List.mem_cons_of_mem x hcm))]

theorem strip_crlf (body term : List Char)
    (hb : ∀ ch ∈ body, ch ≠ '\n' ∧ ch ≠ '\r')
    (ht : ∀ ch ∈ term, ch = '\n' ∨ ch = '\r') :
    truncate_at '\r' (truncate_at '\n' (body ++ term)) = body := by
  have h1 : '\n' ∉ body := fun h => (hb _ h).1 rfl
  have h2 : '\r' ∉ body := fun h => (hb _ h).2 rfl
  rw [truncate_at_append_of_not_mem '\n' body term h1,
    truncate_at_append_of_not_mem '\r' body _ h2]
  cases htt : truncate_at '\n' term with
  | nil =>
    show body ++ ([] : List Char) = body
    exact List.append_nil body
  | cons a l =>
    have ha : a ∈ truncate_at '\n' term := by
      rw [htt]; exact List.mem_cons_self a l
    obtain ⟨ham, hane⟩ := truncate_at_mem '\n' term a ha
    have har : a = '\r' := by
      cases ht a ham with
      | inl h => exact absurd h hane
      | inr h => exact h
    unfold truncate_at
    rw [if_pos har]
    exact List.append_nil body

theorem split_at_colon_none :
    ∀ xs : List Char, ':' ∉ xs → split_at_colon xs = none := by
  intro xs
  induction xs with
  | nil => intro _; rfl
  | cons x xs2 ih =>
    intro h
    have hx : ¬ x = ':' :=
      fun hxc => h (by rw [hxc]; exact List.mem_cons_self ':' xs2)
    unfold split_at_colon
    rw [if_neg hx, ih (fun hcm => h (List.mem_cons_of_mem x hcm))]

theorem split_at_colon_some :
    ∀ (nm rest : List Char), ':' ∉ nm →
      split_at_colon (nm ++ ':' :: rest) = some (nm, rest) := by
  intro nm
  induction nm with
  | nil =>
    intro rest _
    simp [split_at_colon]
  | cons x nm2 ih =>
    intro rest h
    have hx : ¬ x = ':' :=
      fun hxc => h (by rw [hxc]; exact List.mem_cons_self ':' nm2)
    simp only [List.cons_append, split_at_colon, List.append_eq]
    rw [if_neg hx, ih rest (fun hcm => h (List.mem_cons_of_mem x hcm))]

theorem parse_header_line_none (body term : List Char)
    (hb : ∀ ch ∈ body, ch ≠ '\n' ∧ ch ≠ '\r')
    (ht : ∀ ch ∈ term, ch = '\n' ∨ ch = '\r')
    (hnc : ':' ∉ body) :
    parse_header_line (body ++ term) = none := by
  unfold parse_header_line
  rw [strip_crlf body term hb ht, split_at_colon_none body hnc]

theorem parse_header_line_some (nm rest term : List Char)
    (hb : ∀ ch ∈ nm ++ ':' :: rest, ch ≠ '\n' ∧ ch ≠ '\r')
    (ht : ∀ ch ∈ term, ch = '\n' ∨ ch = '\r')
    (hnc : ':' ∉ nm) :
    parse_header_line ((nm ++ ':' :: rest) ++ term) =
      some (nm, drop_leading_space rest) := by
  unfold parse_header_line
  rw [strip_crlf _ term hb ht, split_at_colon_some nm rest hnc]

theorem ci_eq_true_iff (a b : List Char) :
    ci_eq a b = true ↔ a.map Char.toLower = b.map Char.toLower := by
  unfold ci_eq
  exact decide_eq_true_iff

theorem ci_eq_refl (a : List Char) : ci_eq a a = true :=
  (ci_eq_true_iff a a).mpr rfl

theorem ci_eq_symm {a b : List Char} (h : ci_eq a b = true) : ci_eq b a = true :=
  (ci_eq_true_iff b a).mpr ((ci_eq_true_iff a b).mp h).symm

theorem ci_eq_trans {a b c : List Char} (h1 : ci_eq a b = true)
    (h2 : ci_eq b c = true) : ci_eq a c = true :=
  (ci_eq_true_iff a c).mpr (((ci_eq_true_iff a b).mp h1).trans
    ((ci_eq_true_iff b c).mp h2))

theorem header_lookup_assign (m : header_list) (k q v : List Char)
    (h : ci_eq k q = true) :
    header_lookup (header_assign m k v) q = some v := by
  induction m with
  | nil =>
    unfold header_assign header_lookup
    rw [if_pos h]
  | cons kv rest ih =>
    obtain ⟨k0, v0⟩ := kv
    unfold header_assign
    by_cases h0 : ci_eq k0 k = true
    · rw [if_pos h0]
      unfold header_lookup
      rw [if_pos (ci_eq_trans h0 h)]
    · rw [if_neg h0]
      unfold header_lookup
      have h0q : ¬ ci_eq k0 q = true :=
        fun hq => h0 (ci_eq_trans hq (ci_eq_symm h))
      rw [if_neg h0q, ih]

theorem set_input_buffer_fst (st : request) (buffer : List Nat) (sz : Nat) :
    (request.set_input_buffer st buffer sz).1 =
      { st with input_buffer := buffer, input_size := sz } := by
  simp only [request.set_input_buffer]
  repeat' split
  all_goals rfl

theorem process_input_eq (st : request) (size : Nat) (hc : st.canceled = false) :
    request.process_input st size =
      (min size st.input_size,
        st.input_buffer.take (min size st.input_size),
        { st with
          input_buffer := st.input_buffer.drop (min size st.input_size),
          input_size := st.input_size - min size st.input_size }) := by
  unfold request.process_input
  rw [hc]
  simp only [Bool.false_eq_true, if_false]
  have hrem : (if size > st.input_size then st.input_size else size)
      = min size st.input_size := by
    split <;> omega
  rw [hrem]

theorem process_input_canceled (st : request) (size : Nat)
    (hc : st.canceled = true) :
    request.process_input st size = (0, [], st) := by
  simp [request.process_input, hc]

theorem process_input_seq_le (ns : List Nat) :
    ∀ st : request, (process_input_seq st ns).1 ≤ st.input_size := by
  induction ns with
  | nil => intro st; exact Nat.zero_le _
  | cons n ns2 ih =>
    intro st
    unfold process_input_seq
    cases hc : st.canceled with
    | true =>
      rw [process_input_canceled st n hc]
      dsimp only
      have := ih st
      omega
    | false =>
      rw [process_input_eq st n hc]
      dsimp only
      have := ih { st with
        input_buffer := st.input_buffer.drop (min n st.input_size),
        input_size := st.input_size - min n st.input_size }
      dsimp only at this
      omega

theorem run_trace_eq (max : Nat) (o : Nat → attempt_result) (st : request)
    (hu : ¬ st.url = "") (hm : ¬ st.method = "") (hc : st.canceled = false) :
    (request.run max o st).trace = (run_loop o max 0 .ok st 0 0).trace := by
  by_cases hexn : (run_loop o max 0 .ok st 0 0).timed_out_exn = true
  · rw [run_timeout_eq max o st hu hm hc hexn]
  · have hexn2 : (run_loop o max 0 .ok st 0 0).timed_out_exn = false := by
      simpa using hexn
    by_cases hr : (run_loop o max 0 .ok st 0 0).r = .ok
    · rw [run_ok_eq max o st hu hm hc hexn2 hr]
    · rw [run_abort_eq max o st hu hm hc hexn2 hr]

/-- C6: `init` on a canceled executor fails; `init` with a method value
outside {GET, HEAD, PUT, POST, DELETE} fails; for the five methods it
succeeds, clearing exactly the per-transaction fields (URL, error
buffer, output buffer, response headers, response code, last-modified,
request headers, input buffer and size), storing the method string, and
leaving every other field — the installed hook, the cancellation flag,
the timeout deadline, and the statistics counters — unchanged (the live
curl session is reused, not torn down, and is outside the state). -/
theorem claim_C6 (st : request) (m : http_method) :
    (st.canceled = true → request.init st m = .error .canceled_reuse) ∧
    (st.canceled = false → m = .HTTP_OTHER →
      request.init st m = .error .unsupported_method) ∧
    (st.canceled = false → m ≠ .HTTP_OTHER →
      request.init st m = .ok
        { st with
          curl_error := "", url := "", output_buffer := [],
          response_headers := [], response_code := 0, last_modified := 0,
          headers := [], method := method_string m,
          input_buffer := [], input_size := 0 }) := by
  refine ⟨?_, ?_, ?_⟩
  · intro hc
    simp [request.init, hc]
  · intro hc hmo
    simp [request.init, hc, hmo]
  · intro hc hmo
    simp only [request.init, hc, Bool.false_eq_true, if_false, hmo, if_neg,
      set_input_buffer_fst]

/-- C6 witness: a live GET `init` on a used-up state clears the
per-transaction fields and keeps the counters; a canceled state and an
out-of-range method are rejected. -/
theorem claim_C6_witness :
    request.init { req_ready with canceled := true } .HTTP_GET
      = .error .canceled_reuse ∧
    request.init req_ready .HTTP_OTHER = .error .unsupported_method ∧
    request.init req_ready .HTTP_PUT = .ok
      { req_ready with
        curl_error := "", url := "", output_buffer := [],
        response_headers := [], response_code := 0, last_modified := 0,
        headers := [], method := method_string .HTTP_PUT,
        input_buffer := [], input_size := 0 } :=
  ⟨(claim_C6 { req_ready with canceled := true } .HTTP_GET).1 rfl,
    (claim_C6 req_ready .HTTP_OTHER).2.1 rfl rfl,
    (claim_C6 req_ready .HTTP_PUT).2.2 rfl (by decide)⟩

/-- C7 (amended): `set_input_buffer` always records the buffer pointer
and size first; it then raises the misuse (programmer) error exactly
when the size is nonzero and the method is neither PUT nor POST — so on
that error path the buffer fields have already been assigned. -/
theorem claim_C7 (st : request) (buffer : List Nat) (size : Nat) :
    (request.set_input_buffer st buffer size).1 =
      { st with input_buffer := buffer, input_size := size } ∧
    ((request.set_input_buffer st buffer size).2 = some .input_on_wrong_method ↔
      (st.method ≠ "PUT" ∧ st.method ≠ "POST" ∧ size ≠ 0)) := by
  refine ⟨set_input_buffer_fst st buffer size, ?_⟩
  simp only [request.set_input_buffer]
  repeat' split
  · next h1 =>
    constructor
    · intro hx; cases hx
    · rintro ⟨ha, -, -⟩; exact absurd h1 ha
  · next h2 =>
    constructor
    · intro hx; cases hx
    · rintro ⟨-, hb, -⟩; exact absurd h2 hb
  · next h1 h2 h3 =>
    exact ⟨fun _ => ⟨h1, h2, h3⟩, fun _ => rfl⟩
  · next h3 =>
    constructor
    · intro hx; cases hx
    · rintro ⟨-, -, hsz⟩; exact absurd hsz h3

/-- C7 witness: on a PUT request the buffer is installed without error;
with size zero a GET accepts the call. -/
theorem claim_C7_witness :
    (request.set_input_buffer { req_ready with method := "PUT" } [7, 8] 2).1 =
      { { req_ready with method := "PUT" } with input_buffer := [7, 8], input_size := 2 } ∧
    ((request.set_input_buffer { req_ready with method := "PUT" } [7, 8] 2).2
        = some .input_on_wrong_method ↔
      ({ req_ready with method := "PUT" } : request).method ≠ "PUT" ∧
        ({ req_ready with method := "PUT" } : request).method ≠ "POST" ∧ (2 : Nat) ≠ 0) :=
  claim_C7 { req_ready with method := "PUT" } [7, 8] 2

/-- C7 counterexample: on a GET request a nonzero body raises the
misuse error, yet the buffer pointer and size stand assigned — the
claim's "the configured body is not installed" fails. -/
theorem claim_C7_counterexample :
    req_ready.method = "GET" ∧
    (request.set_input_buffer req_ready [42] 1).2 = some .input_on_wrong_method ∧
    (request.set_input_buffer req_ready [42] 1).1.input_size = 1 ∧
    (request.set_input_buffer req_ready [42] 1).1.input_buffer = [42] := by
  refine ⟨by decide, by decide, by decide, by decide⟩

/-- C10: a read-callback invocation on a live request returns exactly
`min (requested, remaining)`, copies that leading slice of the buffer, advances
the buffer and decreases the remaining size by the same amount (so the
subtraction cannot underflow: new size plus the count equals the old
size); over any sequence of invocations the total returned never
exceeds the current remaining size, and never exceeds the size passed to
`set_input_buffer`. -/
theorem claim_C10 (st : request) (size : Nat) (ns : List Nat)
    (buffer : List Nat) (sz : Nat) :
    (st.canceled = false →
      (request.process_input st size).1 = min size st.input_size ∧
      (request.process_input st size).2.1
        = st.input_buffer.take (min size st.input_size) ∧
      (request.process_input st size).2.2.input_size
        + (request.process_input st size).1 = st.input_size ∧
      (request.process_input st size).2.2.input_buffer
        = st.input_buffer.drop (min size st.input_size)) ∧
    (process_input_seq st ns).1 ≤ st.input_size ∧
    (process_input_seq (request.set_input_buffer st buffer sz).1 ns).1 ≤ sz := by
  refine ⟨?_, process_input_seq_le ns st, ?_⟩
  · intro hc
    rw [process_input_eq st size hc]
    refine ⟨rfl, rfl, ?_, rfl⟩
    dsimp only
    omega
  · rw [set_input_buffer_fst]
    exact process_input_seq_le ns
      { st with input_buffer := buffer, input_size := sz }

/-- C10 witness: a concrete 4-byte body read in chunks of 3. -/
theorem claim_C10_witness :
    ({ req_ready with input_buffer := [1, 2, 3, 4], input_size := 4 } : request).canceled
        = false ∧
    (request.process_input
      { req_ready with input_buffer := [1, 2, 3, 4], input_size := 4 } 3).1
        = min 3 ({ req_ready with input_buffer := [1, 2, 3, 4], input_size := 4 } :
            request).input_size ∧
    (process_input_seq
      { req_ready with input_buffer := [1, 2, 3, 4], input_size := 4 } [3, 3, 3]).1
        ≤ ({ req_ready with input_buffer := [1, 2, 3, 4], input_size := 4 } :
            request).input_size ∧
    (process_input_seq
      (request.set_input_buffer req_ready [1, 2, 3, 4] 4).1 [3, 3, 3]).1 ≤ 4 := by
  refine ⟨rfl, ?_, ?_, ?_⟩
  · exact ((claim_C10 { req_ready with input_buffer := [1, 2, 3, 4], input_size := 4 }
      3 [3, 3, 3] [1, 2, 3, 4] 4).1 rfl).1
  · exact (claim_C10 { req_ready with input_buffer := [1, 2, 3, 4], input_size := 4 }
      3 [3, 3, 3] [1, 2, 3, 4] 4).2.1
  · exact (claim_C10 req_ready 3 [3, 3, 3] [1, 2, 3, 4] 4).2.2

/-- C4: for a header line made of a body (no CR/LF) followed by its
trailing CR/LF terminator, a live request's header callback strips the
terminator, and: with no colon in the body it returns the line length
and leaves the response-header map unchanged; with a first colon it
stores (name before the colon → text after it, one leading space
removed) in the case-insensitive map by assignment. -/
theorem claim_C4 (st : request) (body term : List Char)
    (hcanc : st.canceled = false)
    (hb : ∀ ch ∈ body, ch ≠ '\n' ∧ ch ≠ '\r')
    (ht : ∀ ch ∈ term, ch = '\n' ∨ ch = '\r') :
    (':' ∉ body →
      request.process_header st (body ++ term) = ((body ++ term).length, st)) ∧
    (∀ nm rest, body = nm ++ ':' :: rest → ':' ∉ nm →
      request.process_header st (body ++ term) =
        ((body ++ term).length,
          { st with response_headers :=
              header_assign st.response_headers nm (drop_leading_space rest) })) := by
  constructor
  · intro hnc
    unfold request.process_header
    rw [hcanc]
    simp only [Bool.false_eq_true, if_false]
    rw [parse_header_line_none body term hb ht hnc]
  · intro nm rest hbody hnc
    subst hbody
    unfold request.process_header
    rw [hcanc]
    simp only [Bool.false_eq_true, if_false]
    rw [parse_header_line_some nm rest term hb ht hnc]

/-- C4 witness: the line `ETag: x` with CRLF terminator stores the
pair, and a line with no colon is ignored. -/
theorem claim_C4_witness :
    request.process_header req_ready
        ((['E', 'T', 'a', 'g'] ++ ':' :: ' ' :: ['x']) ++ ['\r', '\n']) =
      (((['E', 'T', 'a', 'g'] ++ ':' :: ' ' :: ['x']) ++ ['\r', '\n']).length,
        { req_ready with response_headers :=
            (header_assign req_ready.response_headers ['E', 'T', 'a', 'g']
              (drop_leading_space (' ' :: ['x']))) }) ∧
    request.process_header req_ready (['h', 'i'] ++ ['\r', '\n']) =
      ((['h', 'i'] ++ ['\r', '\n']).length, req_ready) :=
  ⟨(claim_C4 req_ready (['E', 'T', 'a', 'g'] ++ ':' :: ' ' :: ['x']) ['\r', '\n']
      rfl (by decide) (by decide)).2 ['E', 'T', 'a', 'g'] (' ' :: ['x']) rfl
      (by decide),
    (claim_C4 req_ready ['h', 'i'] ['\r', '\n'] rfl (by decide) (by decide)).1
      (by decide)⟩

/-- C9: response-header storage is map assignment — an assignment under
a case-insensitively equal name overwrites the previously stored value,
so after two header lines whose names compare equal the lookup returns
the second value. -/
theorem claim_C9 (st : request) (nm1 nm2 v1 v2 t1 t2 : List Char)
    (hcanc : st.canceled = false)
    (hn1 : ∀ ch ∈ nm1, ch ≠ '\n' ∧ ch ≠ '\r' ∧ ch ≠ ':')
    (hn2 : ∀ ch ∈ nm2, ch ≠ '\n' ∧ ch ≠ '\r' ∧ ch ≠ ':')
    (hv1 : ∀ ch ∈ v1, ch ≠ '\n' ∧ ch ≠ '\r')
    (hv2 : ∀ ch ∈ v2, ch ≠ '\n' ∧ ch ≠ '\r')
    (ht1 : ∀ ch ∈ t1, ch = '\n' ∨ ch = '\r')
    (ht2 : ∀ ch ∈ t2, ch = '\n' ∨ ch = '\r')
    (hci : ci_eq nm1 nm2 = true) :
    (∀ (m : header_list) (k q v : List Char), ci_eq k q = true →
      header_lookup (header_assign m k v) q = some v) ∧
    header_lookup
      ((request.process_header
        ((request.process_header st ((nm1 ++ ':' :: ' ' :: v1) ++ t1)).2)
        ((nm2 ++ ':' :: ' ' :: v2) ++ t2)).2).response_headers nm2 = some v2 ∧
    header_lookup
      ((request.process_header
        ((request.process_header st ((nm1 ++ ':' :: ' ' :: v1) ++ t1)).2)
        ((nm2 ++ ':' :: ' ' :: v2) ++ t2)).2).response_headers nm1 = some v2 := by
  constructor
  · exact fun m k q v h => header_lookup_assign m k q v h
  · have hb1 : ∀ ch ∈ nm1 ++ ':' :: ' ' :: v1, ch ≠ '\n' ∧ ch ≠ '\r' := by
      intro ch hch
      rcases List.mem_append.mp hch with h | h
      · exact ⟨(hn1 ch h).1, (hn1 ch h).2.1⟩
      · rcases List.mem_cons.mp h with h | h
        · subst h; exact ⟨by decide, by decide⟩
        · rcases List.mem_cons.mp h with h | h
          · subst h; exact ⟨by decide, by decide⟩
          · exact hv1 ch h
    have hb2 : ∀ ch ∈ nm2 ++ ':' :: ' ' :: v2, ch ≠ '\n' ∧ ch ≠ '\r' := by
      intro ch hch
      rcases List.mem_append.mp hch with h | h
      · exact ⟨(hn2 ch h).1, (hn2 ch h).2.1⟩
      · rcases List.mem_cons.mp h with h | h
        · subst h; exact ⟨by decide, by decide⟩
        · rcases List.mem_cons.mp h with h | h
          · subst h; exact ⟨by decide, by decide⟩
          · exact hv2 ch h
    have hp1 := parse_header_line_some nm1 (' ' :: v1) t1 hb1 ht1
      (fun hcm => ((hn1 ':' hcm).2.2) rfl)
    have hp2 := parse_header_line_some nm2 (' ' :: v2) t2 hb2 ht2
      (fun hcm => ((hn2 ':' hcm).2.2) rfl)
    have hd1 : drop_leading_space (' ' :: v1) = v1 := rfl
    have hd2 : drop_leading_space (' ' :: v2) = v2 := rfl
    rw [hd1] at hp1
    rw [hd2] at hp2
    rw [process_header_some st _ nm1 v1 hcanc hp1,
      process_header_some
        { st with response_headers := header_assign st.response_headers nm1 v1 }
        _ nm2 v2 hcanc hp2]
    exact ⟨header_lookup_assign _ nm2 nm2 v2 (ci_eq_refl nm2),
      header_lookup_assign _ nm2 nm1 v2 (ci_eq_symm hci)⟩

/-- C9 witness: `ETag: a` then `etag: b` — the lookup under `etag`
returns `b`, and so does the lookup under the original `ETag`. -/
theorem claim_C9_witness :
    header_lookup
      ((request.process_header
        ((request.process_header req_ready
          ((['E', 'T', 'a', 'g'] ++ ':' :: ' ' :: ['a']) ++ ['\r', '\n'])).2)
        ((['e', 't', 'a', 'g'] ++ ':' :: ' ' :: ['b']) ++ ['\r', '\n'])).2).response_headers
      ['e', 't', 'a', 'g'] = some ['b'] ∧
    header_lookup
      ((request.process_header
        ((request.process_header req_ready
          ((['E', 'T', 'a', 'g'] ++ ':' :: ' ' :: ['a']) ++ ['\r', '\n'])).2)
        ((['e', 't', 'a', 'g'] ++ ':' :: ' ' :: ['b']) ++ ['\r', '\n'])).2).response_headers
      ['E', 'T', 'a', 'g'] = some ['b'] :=
  (claim_C9 req_ready ['E', 'T', 'a', 'g'] ['e', 't', 'a', 'g'] ['a'] ['b']
    ['\r', '\n'] ['\r', '\n'] rfl (by decide) (by decide) (by decide) (by decide)
    (by decide) (by decide) (by decide)).2

/-- C5 (amended): a successful `run` on an instance with at least one
prior run adds the loop's elapsed time and transferred bytes to the
instance counters, while a first successful run leaves both totals
unchanged (connection warmup); the destructor folds the per-instance
counters (run count, elapsed time, bytes) into the process-wide totals
only when the instance transferred at least one byte, and an instance
with zero transferred bytes leaves the totals unchanged. -/
theorem claim_C5 :
    (∀ (max : Nat) (o : Nat → attempt_result) (st st2 : request),
      st.url ≠ "" → st.method ≠ "" → st.canceled = false →
      (request.run max o st).result = .ok st2 →
      ((st.run_count = 0 →
        st2.total_run_time = st.total_run_time ∧
        st2.total_bytes_transferred = st.total_bytes_transferred) ∧
      (0 < st.run_count →
        st2.total_run_time
          = st.total_run_time + (run_loop o max 0 .ok st 0 0).elapsed ∧
        st2.total_bytes_transferred
          = st.total_bytes_transferred + (run_loop o max 0 .ok st 0 0).bytes))) ∧
    (∀ (g : global_stats) (st : request),
      (0 < st.total_bytes_transferred →
        request.dtor_fold g st =
          ⟨g.run_count + st.run_count, g.run_time + st.total_run_time,
            g.total_bytes + st.total_bytes_transferred⟩) ∧
      (st.total_bytes_transferred = 0 → request.dtor_fold g st = g)) := by
  constructor
  · intro max o st st2 hu hm hc hres
    by_cases hexn : (run_loop o max 0 .ok st 0 0).timed_out_exn = true
    · rw [run_timeout_eq max o st hu hm hc hexn] at hres
      exact absurd hres (by simp)
    · have hexn2 : (run_loop o max 0 .ok st 0 0).timed_out_exn = false := by
        simpa using hexn
      by_cases hr : (run_loop o max 0 .ok st 0 0).r = .ok
      · rw [run_ok_eq max o st hu hm hc hexn2 hr] at hres
        have hres2 : run_final_state (run_loop o max 0 .ok st 0 0) = st2 := by
          have := hres
          simp only at this
          exact Except.ok.inj this
        obtain ⟨-, hrc, htrt, htbt, -⟩ := run_loop_frame o max 0 .ok st 0 0
        subst hres2
        constructor
        · intro h0
          have hz : ¬ 0 < (run_loop o max 0 .ok st 0 0).st.run_count := by
            rw [hrc, h0]
            omega
          obtain ⟨a1, a2, -⟩ :=
            run_final_state_totals_zero (run_loop o max 0 .ok st 0 0) hz
          exact ⟨a1.trans htrt, a2.trans htbt⟩
        · intro hpos
          have hp : 0 < (run_loop o max 0 .ok st 0 0).st.run_count := by
            rw [hrc]
            exact hpos
          obtain ⟨a1, a2, -⟩ :=
            run_final_state_totals_pos (run_loop o max 0 .ok st 0 0) hp
          rw [htrt] at a1
          rw [htbt] at a2
          exact ⟨a1, a2⟩
      · rw [run_abort_eq max o st hu hm hc hexn2 hr] at hres
        exact absurd hres (by simp)
  · intro g st
    constructor
    · intro h
      unfold request.dtor_fold
      rw [if_pos h]
    · intro h
      unfold request.dtor_fold
      rw [if_neg (by omega)]

/-- C5 witness: on an instance with two prior runs, a successful run
adds the loop's elapsed time and byte count into the instance totals;
the destructor folds an instance with nonzero transferred bytes. -/
theorem claim_C5_witness :
    0 < req_seasoned.run_count ∧
    (request.run 3 oracle_ok req_seasoned).result = .ok req_seasoned_after ∧
    (req_seasoned_after.total_run_time
        = req_seasoned.total_run_time
          + (run_loop oracle_ok 3 0 .ok req_seasoned 0 0).elapsed ∧
      req_seasoned_after.total_bytes_transferred
        = req_seasoned.total_bytes_transferred
          + (run_loop oracle_ok 3 0 .ok req_seasoned 0 0).bytes) ∧
    0 < req_with_bytes.total_bytes_transferred ∧
    request.dtor_fold gstats0 req_with_bytes =
      ⟨gstats0.run_count + req_with_bytes.run_count,
        gstats0.run_time + req_with_bytes.total_run_time,
        gstats0.total_bytes + req_with_bytes.total_bytes_transferred⟩ :=
  ⟨by decide, by rfl,
    (claim_C5.1 3 oracle_ok req_seasoned req_seasoned_after
      (by decide) (by decide) rfl (by rfl)).2 (by decide),
    by decide,
    (claim_C5.2 gstats0 req_with_bytes).1 (by decide)⟩

/-- C5 counterexample: a fresh instance after one successful run has
run count 1 and zero transferred bytes; its destruction leaves the
process-wide totals untouched, so its run count is not folded in —
refuting the claim that destruction always folds the per-instance
counters into the process-wide totals. -/
theorem claim_C5_counterexample :
    (request.run 5 oracle_ok req_ready).result = .ok req_after_first_run ∧
    req_after_first_run.run_count = 1 ∧
    req_after_first_run.total_bytes_transferred = 0 ∧
    request.dtor_fold gstats0 req_after_first_run = gstats0 ∧
    (request.dtor_fold gstats0 req_after_first_run).run_count ≠
      gstats0.run_count + req_after_first_run.run_count :=
  ⟨by rfl, rfl, rfl, by rfl, by decide⟩

/-- C1: a `run` on a live request performs at most
`max_transfer_retries` attempts; attempt `k` carries the 0-based index
`k`, invokes the hook's `pre_run` exactly when a hook is installed, and
performs the HTTP call whose curl code the oracle assigns to attempt
`k`; and an attempt `k + 1` exists only when attempt `k` ended in a
transport-class error or the hook's `should_retry` returned true. -/
theorem claim_C1 (max : Nat) (o : Nat → attempt_result) (st : request)
    (hu : st.url ≠ "") (hm : st.method ≠ "") (hc : st.canceled = false) :
    (request.run max o st).trace.length ≤ max ∧
    (∀ k, k < (request.run max o st).trace.length →
      ((request.run max o st).trace.getD k arec0).idx = k ∧
      ((request.run max o st).trace.getD k arec0).pre_run_invoked
        = st.hook.isSome ∧
      ((request.run max o st).trace.getD k arec0).code = (o k).code) ∧
    (∀ k, k + 1 < (request.run max o st).trace.length →
      ((request.run max o st).trace.getD k arec0).code.is_transport_error = true ∨
      ((request.run max o st).trace.getD k arec0).hook_retry = true) := by
  rw [run_trace_eq max o st hu hm hc]
  refine ⟨run_loop_len o max 0 .ok st 0 0, ?_, ?_⟩
  · intro k hk
    have h := run_loop_get o max 0 .ok st 0 0 k hk
    rw [Nat.zero_add] at h
    exact h
  · intro k hk
    exact (run_loop_retry_cond o max 0 .ok st 0 0 k hk).1

/-- C1 witness: three allowed attempts against an oracle that always
fails at the transport level use the full budget of 3 attempts. -/
theorem claim_C1_witness :
    (request.run 3 (fun _ => ⟨.couldnt_connect, false, [], [], 0, 1, 0, "x"⟩)
      req_ready).trace.length ≤ 3 ∧
    (∀ k, k < (request.run 3 (fun _ => ⟨.couldnt_connect, false, [], [], 0, 1, 0, "x"⟩)
        req_ready).trace.length →
      ((request.run 3 (fun _ => ⟨.couldnt_connect, false, [], [], 0, 1, 0, "x"⟩)
        req_ready).trace.getD k arec0).idx = k ∧
      ((request.run 3 (fun _ => ⟨.couldnt_connect, false, [], [], 0, 1, 0, "x"⟩)
        req_ready).trace.getD k arec0).pre_run_invoked = req_ready.hook.isSome ∧
      ((request.run 3 (fun _ => ⟨.couldnt_connect, false, [], [], 0, 1, 0, "x"⟩)
        req_ready).trace.getD k arec0).code
        = ((fun _ => (⟨.couldnt_connect, false, [], [], 0, 1, 0, "x"⟩ :
            attempt_result)) k).code) ∧
    (∀ k, k + 1 < (request.run 3
        (fun _ => ⟨.couldnt_connect, false, [], [], 0, 1, 0, "x"⟩)
        req_ready).trace.length →
      ((request.run 3 (fun _ => ⟨.couldnt_connect, false, [], [], 0, 1, 0, "x"⟩)
        req_ready).trace.getD k arec0).code.is_transport_error = true ∨
      ((request.run 3 (fun _ => ⟨.couldnt_connect, false, [], [], 0, 1, 0, "x"⟩)
        req_ready).trace.getD k arec0).hook_retry = true) :=
  claim_C1 3 (fun _ => ⟨.couldnt_connect, false, [], [], 0, 1, 0, "x"⟩) req_ready
    (by decide) (by decide) rfl

/-- C2: after the loop, a final attempt that did not time out and ended
in a transport-class error makes `run` raise the abort error; a final
attempt that returned CURLE_OK makes `run` return success with the
final response code observable, and the high-code warning fires exactly
when that code is at least 300 and differs from 404. -/
theorem claim_C2 (max : Nat) (o : Nat → attempt_result) (st : request)
    (hu : st.url ≠ "") (hm : st.method ≠ "") (hc : st.canceled = false) :
    ((request.run max o st).trace ≠ [] →
      ((request.run max o st).trace.getD
        ((request.run max o st).trace.length - 1) arec0).timed_out = false →
      ((request.run max o st).trace.getD
        ((request.run max o st).trace.length - 1) arec0).code.is_transport_error
          = true →
      ∃ msg, (request.run max o st).result = .error (.aborted msg)) ∧
    ((request.run max o st).trace ≠ [] →
      ((request.run max o st).trace.getD
        ((request.run max o st).trace.length - 1) arec0).timed_out = false →
      ((request.run max o st).trace.getD
        ((request.run max o st).trace.length - 1) arec0).code = .ok →
      ∃ st2, (request.run max o st).result = .ok st2 ∧
        st2.response_code
          = (o ((request.run max o st).trace.length - 1)).response_code ∧
        ((request.run max o st).warned = true ↔
          (300 ≤ st2.response_code ∧ st2.response_code ≠ 404))) := by
  rw [run_trace_eq max o st hu hm hc]
  constructor
  · intro hne htod htr
    have hexn : (run_loop o max 0 .ok st 0 0).timed_out_exn = false := by
      cases hx : (run_loop o max 0 .ok st 0 0).timed_out_exn
      · rfl
      · obtain ⟨-, hlast⟩ := (run_loop_exn_iff o max 0 .ok st 0 0).mp hx
        rw [hlast] at htod
        cases htod
    have hrlast := run_loop_last_r o max 0 .ok st 0 0 hne
    have hrne : (run_loop o max 0 .ok st 0 0).r ≠ .ok := by
      intro hq
      rw [hq] at hrlast
      rw [← hrlast] at htr
      cases htr
    rw [run_abort_eq max o st hu hm hc hexn hrne]
    exact ⟨(run_loop o max 0 .ok st 0 0).st.curl_error, rfl⟩
  · intro hne htod hok
    have hexn : (run_loop o max 0 .ok st 0 0).timed_out_exn = false := by
      cases hx : (run_loop o max 0 .ok st 0 0).timed_out_exn
      · rfl
      · obtain ⟨-, hlast⟩ := (run_loop_exn_iff o max 0 .ok st 0 0).mp hx
        rw [hlast] at htod
        cases htod
    have hrlast := run_loop_last_r o max 0 .ok st 0 0 hne
    have hr : (run_loop o max 0 .ok st 0 0).r = .ok := by rw [hrlast, hok]
    rw [run_ok_eq max o st hu hm hc hexn hr]
    refine ⟨run_final_state (run_loop o max 0 .ok st 0 0), rfl, ?_, ?_⟩
    · obtain ⟨hfr, -, -, -, -, -⟩ :=
        run_final_state_frame (run_loop o max 0 .ok st 0 0)
      obtain ⟨hrc, -, -⟩ :=
        run_loop_final_ok o max 0 .ok st 0 0 hc hexn hne hok
      rw [hfr, hrc, Nat.zero_add]
    · simp only [decide_eq_true_iff]

/-- C2 witness: an always-failing transport yields the abort error; a
200 series run succeeds without the warning (300 ≤ 200 is false). -/
theorem claim_C2_witness :
    (∃ msg, (request.run 2
      (fun _ => ⟨.couldnt_connect, false, [], [], 0, 1, 0, "boom"⟩)
      req_ready).result = .error (.aborted msg)) ∧
    (∃ st2, (request.run 2 oracle_ok req_ready).result = .ok st2 ∧
      st2.response_code
        = (oracle_ok ((request.run 2 oracle_ok req_ready).trace.length - 1)).response_code ∧
      ((request.run 2 oracle_ok req_ready).warned = true ↔
        (300 ≤ st2.response_code ∧ st2.response_code ≠ 404))) :=
  ⟨(claim_C2 2 (fun _ => ⟨.couldnt_connect, false, [], [], 0, 1, 0, "boom"⟩)
      req_ready (by decide) (by decide) rfl).1 (by decide) (by decide) (by decide),
    (claim_C2 2 oracle_ok req_ready (by decide) (by decide) rfl).2
      (by decide) (by decide) (by decide)⟩

/-- C8: when `run` returns success, the output buffer and the
response-header map of the returned state come from the final attempt
alone — each loop iteration clears both before the HTTP call, so nothing
accumulated from earlier retried attempts survives. -/
theorem claim_C8 (max : Nat) (o : Nat → attempt_result) (st st2 : request)
    (hu : st.url ≠ "") (hm : st.method ≠ "") (hc : st.canceled = false)
    (hne : (request.run max o st).trace ≠ [])
    (hres : (request.run max o st).result = .ok st2) :
    st2.output_buffer
      = (o ((request.run max o st).trace.length - 1)).output_data ∧
    st2.response_headers =
      parse_header_lines []
        ((o ((request.run max o st).trace.length - 1)).header_lines) := by
  rw [run_trace_eq max o st hu hm hc] at hne ⊢
  by_cases hexn : (run_loop o max 0 .ok st 0 0).timed_out_exn = true
  · rw [run_timeout_eq max o st hu hm hc hexn] at hres
    exact absurd hres (by simp)
  · have hexn2 : (run_loop o max 0 .ok st 0 0).timed_out_exn = false := by
      simpa using hexn
    by_cases hr : (run_loop o max 0 .ok st 0 0).r = .ok
    · rw [run_ok_eq max o st hu hm hc hexn2 hr] at hres
      have hres2 : run_final_state (run_loop o max 0 .ok st 0 0) = st2 := by
        have hres3 := hres
        simp only at hres3
        exact Except.ok.inj hres3
      subst hres2
      have hlast := run_loop_last_r o max 0 .ok st 0 0 hne
      have hok : ((run_loop o max 0 .ok st 0 0).trace.getD
          ((run_loop o max 0 .ok st 0 0).trace.length - 1) arec0).code = .ok := by
        rw [← hlast]
        exact hr
      obtain ⟨-, hob, hrh⟩ :=
        run_loop_final_ok o max 0 .ok st 0 0 hc hexn2 hne hok
      obtain ⟨-, hfo, hfh, -, -, -⟩ :=
        run_final_state_frame (run_loop o max 0 .ok st 0 0)
      rw [hfo, hfh, hob, hrh, Nat.zero_add]
      exact ⟨rfl, rfl⟩
    · rw [run_abort_eq max o st hu hm hc hexn2 hr] at hres
      exact absurd hres (by simp)

/-- C8 witness: one run against an oracle that delivers a header line
and two body bytes ends with exactly that data in the final state. -/
theorem claim_C8_witness :
    (request.run 4 oracle_data req_ready).result = .ok req_after_data_run ∧
    (req_after_data_run.output_buffer
      = (oracle_data
          ((request.run 4 oracle_data req_ready).trace.length - 1)).output_data ∧
    req_after_data_run.response_headers =
      parse_header_lines []
        ((oracle_data
          ((request.run 4 oracle_data req_ready).trace.length - 1)).header_lines)) :=
  ⟨by rfl,
    claim_C8 4 oracle_data req_ready req_after_data_run (by decide) (by decide)
      rfl (by decide) (by rfl)⟩

/-- C3: cancellation is set once and terminal — an expired deadline
makes `check_timeout` set the canceled flag and report true; on a
canceled request every data callback returns 0 and changes nothing,
`init` and `run` fail, and a timed-out attempt makes `run` report the
timeout error; no modelled operation (set_url, set_input_buffer,
check_timeout, the transfer itself) ever clears the canceled flag. -/
theorem claim_C3 :
    (∀ (now : Nat) (st : request), st.timeout ≠ 0 → st.timeout < now →
      request.check_timeout now st = (true, { st with canceled := true })) ∧
    (∀ (st : request) (data : List Char), st.canceled = true →
      request.process_header st data = (0, st)) ∧
    (∀ (st : request) (data : List Nat), st.canceled = true →
      request.process_output st data = (0, st)) ∧
    (∀ (st : request) (size : Nat), st.canceled = true →
      request.process_input st size = (0, [], st)) ∧
    (∀ (st : request) (m : http_method), st.canceled = true →
      request.init st m = .error .canceled_reuse) ∧
    (∀ (max : Nat) (o : Nat → attempt_result) (st : request),
      st.canceled = true → st.url ≠ "" → st.method ≠ "" →
      (request.run max o st).result = .error .canceled_reuse) ∧
    (∀ (max : Nat) (o : Nat → attempt_result) (st : request) (k : Nat),
      st.url ≠ "" → st.method ≠ "" → st.canceled = false →
      k < (request.run max o st).trace.length →
      ((request.run max o st).trace.getD k arec0).timed_out = true →
      (request.run max o st).result = .error .timed_out) ∧
    (∀ (st : request) (url q : String), st.canceled = true →
      (request.set_url st url q).canceled = true) ∧
    (∀ (st : request) (buffer : List Nat) (sz : Nat), st.canceled = true →
      (request.set_input_buffer st buffer sz).1.canceled = true) ∧
    (∀ (now : Nat) (st : request), st.canceled = true →
      (request.check_timeout now st).2.canceled = true) ∧
    (∀ (a : attempt_result) (st : request), st.canceled = true →
      (perform a st).2.canceled = true) := by
  refine ⟨?_, ?_, ?_, ?_, ?_, ?_, ?_, ?_, ?_, ?_, ?_⟩
  · intro now st h1 h2
    unfold request.check_timeout
    rw [if_pos ⟨h1, h2⟩]
  · intro st data h
    simp [request.process_header, h]
  · intro st data h
    simp [request.process_output, h]
  · intro st size h
    exact process_input_canceled st size h
  · intro st m h
    simp [request.init, h]
  · intro max o st h hu hm
    simp [request.run, hu, hm, h]
  · intro max o st k hu hm hc hk htod
    by_cases hexn : (run_loop o max 0 .ok st 0 0).timed_out_exn = true
    · rw [run_timeout_eq max o st hu hm hc hexn]
    · exfalso
      have hexn2 : (run_loop o max 0 .ok st 0 0).timed_out_exn = false := by
        simpa using hexn
      rw [run_trace_eq max o st hu hm hc] at hk htod
      have hne : (run_loop o max 0 .ok st 0 0).trace ≠ [] := by
        intro hq
        rw [hq] at hk
        exact absurd hk (by simp)
      by_cases hkl : k + 1 < (run_loop o max 0 .ok st 0 0).trace.length
      · have hft := (run_loop_retry_cond o max 0 .ok st 0 0 k hkl).2
        rw [hft] at htod
        cases htod
      · have hk1 : k = (run_loop o max 0 .ok st 0 0).trace.length - 1 := by omega
        rw [hk1] at htod
        have hxt := (run_loop_exn_iff o max 0 .ok st 0 0).mpr ⟨hne, htod⟩
        rw [hxt] at hexn2
        cases hexn2
  · intro st url q h
    exact h
  · intro st buffer sz h
    rw [set_input_buffer_fst]
    exact h
  · intro now st h
    unfold request.check_timeout
    split
    · rfl
    · exact h
  · intro a st h
    exact perform_snd_canceled_mono a st h

/-- C3 witness: a passed deadline fires `check_timeout` and cancels; on
the canceled instance every callback returns 0 and `init`, `run` fail;
a timed-out transfer makes `run` report the timeout; no operation
clears the flag. -/
theorem claim_C3_witness :
    request.check_timeout 9 req_deadline
      = (true, { req_deadline with canceled := true }) ∧
    request.process_header req_canceled ['a'] = (0, req_canceled) ∧
    request.process_output req_canceled [1] = (0, req_canceled) ∧
    request.process_input req_canceled 4 = (0, [], req_canceled) ∧
    request.init req_canceled .HTTP_GET = .error .canceled_reuse ∧
    (request.run 2 oracle_ok req_canceled).result = .error .canceled_reuse ∧
    (request.run 2 oracle_timeout req_ready).result = .error .timed_out ∧
    (request.set_url req_canceled "u" "q").canceled = true ∧
    (request.set_input_buffer req_canceled [1] 1).1.canceled = true ∧
    (request.check_timeout 0 req_canceled).2.canceled = true ∧
    (perform (oracle_ok 0) req_canceled).2.canceled = true :=
  ⟨claim_C3.1 9 req_deadline (by decide) (by decide),
    claim_C3.2.1 req_canceled ['a'] rfl,
    claim_C3.2.2.1 req_canceled [1] rfl,
    claim_C3.2.2.2.1 req_canceled 4 rfl,
    claim_C3.2.2.2.2.1 req_canceled .HTTP_GET rfl,
    claim_C3.2.2.2.2.2.1 2 oracle_ok req_canceled rfl (by decide) (by decide),
    claim_C3.2.2.2.2.2.2.1 2 oracle_timeout req_ready 0 (by decide) (by decide)
      rfl (by decide) (by decide),
    claim_C3.2.2.2.2.2.2.2.1 req_canceled "u" "q" rfl,
    claim_C3.2.2.2.2.2.2.2.2.1 req_canceled [1] 1 rfl,
    claim_C3.2.2.2.2.2.2.2.2.2.1 0 req_canceled rfl,
    claim_C3.2.2.2.2.2.2.2.2.2.2 (oracle_ok 0) req_canceled rfl⟩
